import Mathlib

/-!
Verification development for the gomall stock-reservation and order
 fulfillment core.

The Go source is embedded shallowly:

* rows of the `inventory`, `inventory_reservations`, `inventory_logs`,
  `orders` and `order_items` tables become Lean structures
  (machine integers become `Int`; the claims under study are unaffected
  by 32/64-bit wraparound because the database CHECK constraints and the
  guarded updates keep all quantities small and non-negative);
* each statement of `db/query/inventory.sql` (and the order queries)
  becomes a pure function on a database value, in namespace `Sqlc`;
* each method of `internal/domain/inventory/service.go` becomes a
  function in namespace `Svc`; `ExecTx` of `db/sqlc/store.go` is
  rendered by threading the database through `Except`: an `error`
  result is a rolled-back transaction (the caller keeps the old state),
  an `ok` result carries the committed state;
* the order service of the order package becomes namespace `Ord`.

The sqlc-generated Go for the individual queries is not part of the
source tree (only the SQL text, the `Querier` users and `store.go`
are), so the result signalling of a conditional UPDATE is modelled from
the spec: a version-guarded stock UPDATE that matches zero rows fails
with `ConcurrentUpdate`, and a reservation status transition that
matches zero rows fails with `InvalidStateTransition`.
-/

namespace GoMall

/-- A row of the `inventory` table (migration: product_id UNIQUE,
available_stock and reserved_stock CHECK non-negative, version for
optimistic locking, deleted_at rendered as a Boolean flag). -/
structure Inventory where
  productId : Int
  availableStock : Int
  reservedStock : Int
  version : Int
  deleted : Bool := false
deriving Repr, DecidableEq

/-- A row of the `inventory_reservations` table. Time is modelled as an
integer number of minutes. -/
structure Reservation where
  productId : Int
  orderId : Int
  quantity : Int
  status : String
  expiresAt : Int
  deleted : Bool := false
deriving Repr, DecidableEq

/-- A row of the append-only `inventory_logs` table. -/
structure InventoryLog where
  productId : Int
  orderId : Option Int
  changeType : String
  quantityChange : Int
  beforeAvailable : Int
  afterAvailable : Int
  beforeReserved : Int
  afterReserved : Int
  reason : String
  operatorId : Option Int
deriving Repr, DecidableEq

/-- The inventory-side database state: the three tables the inventory
service touches. -/
structure InvDB where
  inventories : List Inventory
  reservations : List Reservation
  logs : List InventoryLog
deriving Repr, DecidableEq

/-- Error kinds surfaced by the inventory service, following the error
taxonomy of the spec.  `notFound` is sql.ErrNoRows, `insufficientStock`
is dberrors.ErrInsufficientStock, `invalidAdjustment` is the literal
error of AdjustStock.  `concurrentUpdate` and `invalidStateTransition`
are modelled from the spec: they stand for the failure of a conditional
UPDATE that matched zero rows (version guard, respectively reservation
status guard); the generated query code that reports this is not in the
source tree. -/
inductive InvErr where
  | notFound
  | insufficientStock
  | concurrentUpdate
  | invalidStateTransition
  | invalidAdjustment
deriving Repr, DecidableEq

namespace Sqlc

/-- Query GetInventoryByProductID:
SELECT * FROM inventory WHERE product_id = $1 AND deleted_at IS NULL.
SELECT of a :one query returns the first matching row. -/
def getInventoryByProductID (db : InvDB) (pid : Int) : Option Inventory :=
  db.inventories.find? (fun r => decide (r.productId = pid ∧ r.deleted = false))

/-- An UPDATE statement on the inventory table: every row satisfying
the WHERE predicate `p` is rewritten by `f`; the second component is
the number of rows matched. -/
def updateInventories (db : InvDB) (p : Inventory → Bool) (f : Inventory → Inventory) :
    InvDB × Nat :=
  (⟨db.inventories.map (fun r => if p r then f r else r), db.reservations, db.logs⟩,
   (db.inventories.filter p).length)

/-- Query ReserveStock: UPDATE inventory SET available_stock -= $1,
reserved_stock += $1, version += 1 WHERE product_id = $2 AND
available_stock >= $1 AND version = $3 AND deleted_at IS NULL. -/
def reserveStock (db : InvDB) (qty pid ver : Int) : InvDB × Nat :=
  updateInventories db
    (fun r => decide (r.productId = pid ∧ qty ≤ r.availableStock ∧
                      r.version = ver ∧ r.deleted = false))
    (fun r => { r with availableStock := r.availableStock - qty,
                       reservedStock := r.reservedStock + qty,
                       version := r.version + 1 })

/-- Query ReleaseReservedStock: UPDATE inventory SET
available_stock += $1, reserved_stock -= $1, version += 1 WHERE
product_id = $2 AND reserved_stock >= $1 AND version = $3 AND
deleted_at IS NULL. -/
def releaseReservedStock (db : InvDB) (qty pid ver : Int) : InvDB × Nat :=
  updateInventories db
    (fun r => decide (r.productId = pid ∧ qty ≤ r.reservedStock ∧
                      r.version = ver ∧ r.deleted = false))
    (fun r => { r with availableStock := r.availableStock + qty,
                       reservedStock := r.reservedStock - qty,
                       version := r.version + 1 })

/-- Query DeductReservedStock: UPDATE inventory SET
reserved_stock -= $1, version += 1 WHERE product_id = $2 AND
reserved_stock >= $1 AND version = $3 AND deleted_at IS NULL. -/
def deductReservedStock (db : InvDB) (qty pid ver : Int) : InvDB × Nat :=
  updateInventories db
    (fun r => decide (r.productId = pid ∧ qty ≤ r.reservedStock ∧
                      r.version = ver ∧ r.deleted = false))
    (fun r => { r with reservedStock := r.reservedStock - qty,
                       version := r.version + 1 })

/-- Query AddAvailableStock: UPDATE inventory SET
available_stock += $1, version += 1 WHERE product_id = $2 AND
deleted_at IS NULL (no version guard). -/
def addAvailableStock (db : InvDB) (qty pid : Int) : InvDB × Nat :=
  updateInventories db
    (fun r => decide (r.productId = pid ∧ r.deleted = false))
    (fun r => { r with availableStock := r.availableStock + qty,
                       version := r.version + 1 })

/-- Query UpdateInventoryStock: UPDATE inventory SET
available_stock = $1, reserved_stock = $2, version += 1 WHERE
product_id = $3 AND version = $4 AND deleted_at IS NULL. -/
def updateInventoryStock (db : InvDB) (avail res pid ver : Int) : InvDB × Nat :=
  updateInventories db
    (fun r => decide (r.productId = pid ∧ r.version = ver ∧ r.deleted = false))
    (fun r => { r with availableStock := avail,
                       reservedStock := res,
                       version := r.version + 1 })

/-- An UPDATE statement on the inventory_reservations table, analogous
to `updateInventories`. -/
def updateReservations (db : InvDB) (p : Reservation → Bool) (f : Reservation → Reservation) :
    InvDB × Nat :=
  (⟨db.inventories, db.reservations.map (fun r => if p r then f r else r), db.logs⟩,
   (db.reservations.filter p).length)

/-- Query ConfirmReservation: UPDATE inventory_reservations SET
status = confirmed WHERE order_id = $1 AND status = active AND
deleted_at IS NULL. -/
def confirmReservation (db : InvDB) (oid : Int) : InvDB × Nat :=
  updateReservations db
    (fun r => decide (r.orderId = oid ∧ r.status = "active" ∧ r.deleted = false))
    (fun r => { r with status := "confirmed" })

/-- Query CancelReservation: UPDATE inventory_reservations SET
status = cancelled WHERE order_id = $1 AND status = active AND
deleted_at IS NULL. -/
def cancelReservation (db : InvDB) (oid : Int) : InvDB × Nat :=
  updateReservations db
    (fun r => decide (r.orderId = oid ∧ r.status = "active" ∧ r.deleted = false))
    (fun r => { r with status := "cancelled" })

/-- Query CreateInventoryReservation: INSERT one row. -/
def createInventoryReservation (db : InvDB) (r : Reservation) : InvDB :=
  ⟨db.inventories, db.reservations ++ [r], db.logs⟩

/-- Query CreateInventoryLog: INSERT one row. -/
def createInventoryLog (db : InvDB) (l : InventoryLog) : InvDB :=
  ⟨db.inventories, db.reservations, db.logs ++ [l]⟩

/-- Query GetExpiredReservations: SELECT * FROM inventory_reservations
WHERE status = active AND expires_at < NOW() AND deleted_at IS NULL
ORDER BY expires_at ASC LIMIT $1.  The ORDER BY only determines which
rows are chosen once more than `limit` rows qualify; the claims under
study involve a single qualifying row, so the selection is modelled as
filter-then-take. -/
def getExpiredReservations (db : InvDB) (now : Int) (limit : Nat) : List Reservation :=
  (db.reservations.filter
    (fun r => decide (r.status = "active" ∧ r.expiresAt < now ∧ r.deleted = false))).take limit

end Sqlc

/-- Request DTO ReserveStockRequest (dto.go; binding min=1 on quantity). -/
structure ReserveStockRequest where
  productId : Int
  quantity : Int
  orderId : Int
deriving Repr, DecidableEq

/-- Request DTO ReleaseStockRequest (binding min=1 on quantity). -/
structure ReleaseStockRequest where
  productId : Int
  quantity : Int
  orderId : Int
deriving Repr, DecidableEq

/-- Request DTO DeductStockRequest (binding min=1 on quantity). -/
structure DeductStockRequest where
  productId : Int
  quantity : Int
  orderId : Int
deriving Repr, DecidableEq

/-- Request DTO RestockRequest (binding min=1 on quantity). -/
structure RestockRequest where
  productId : Int
  quantity : Int
  reason : String
deriving Repr, DecidableEq

/-- Request DTO AdjustStockRequest (quantity is a signed delta). -/
structure AdjustStockRequest where
  productId : Int
  quantity : Int
  reason : String
deriving Repr, DecidableEq

/-- Response DTO StockCheckResponse. -/
structure StockCheckResponse where
  productId : Int
  availableStock : Int
  reservedStock : Int
  isAvailable : Bool
  requestedQty : Int
deriving Repr, DecidableEq

/-- Request DTO StockCheckItem. -/
structure StockCheckItem where
  productId : Int
  quantity : Int
deriving Repr, DecidableEq

namespace Svc

/-- Steps 2-5 of service.ReserveStock, executed against the snapshot
`inv` that step 1 read.  The snapshot is a parameter so that a read
taken before another writer committed (a stale version) can be
expressed; the sequential entry point below always passes the current
row. -/
def reserveStockFrom (db : InvDB) (inv : Inventory) (req : ReserveStockRequest)
    (expiresInMinutes now : Int) : Except InvErr InvDB :=
  if inv.availableStock < req.quantity then .error .insufficientStock
  else
    let upd := Sqlc.reserveStock db req.quantity req.productId inv.version
    if upd.2 = 0 then .error .concurrentUpdate
    else
      let db2 := Sqlc.createInventoryReservation upd.1
        { productId := req.productId, orderId := req.orderId,
          quantity := req.quantity, status := "active",
          expiresAt := now + expiresInMinutes, deleted := false }
      let db3 := Sqlc.createInventoryLog db2
        { productId := req.productId, orderId := some req.orderId,
          changeType := "reserve", quantityChange := req.quantity,
          beforeAvailable := inv.availableStock,
          afterAvailable := inv.availableStock - req.quantity,
          beforeReserved := inv.reservedStock,
          afterReserved := inv.reservedStock + req.quantity,
          reason := "Stock reserved for order", operatorId := none }
      .ok db3

/-- service.ReserveStock: one transaction that reads the current row
and then runs the guarded update, reservation insert and log insert. -/
def reserveStock (db : InvDB) (req : ReserveStockRequest)
    (expiresInMinutes now : Int) : Except InvErr InvDB :=
  match Sqlc.getInventoryByProductID db req.productId with
  | none => .error .notFound
  | some inv => reserveStockFrom db inv req expiresInMinutes now

/-- service.ReleaseStock: read the row, release reserved stock with the
version guard, cancel the matching active reservation, log. -/
def releaseStock (db : InvDB) (req : ReleaseStockRequest) : Except InvErr InvDB :=
  match Sqlc.getInventoryByProductID db req.productId with
  | none => .error .notFound
  | some inv =>
    let upd := Sqlc.releaseReservedStock db req.quantity req.productId inv.version
    if upd.2 = 0 then .error .concurrentUpdate
    else
      let cr := Sqlc.cancelReservation upd.1 req.orderId
      if cr.2 = 0 then .error .invalidStateTransition
      else
        .ok (Sqlc.createInventoryLog cr.1
          { productId := req.productId, orderId := some req.orderId,
            changeType := "release", quantityChange := -req.quantity,
            beforeAvailable := inv.availableStock,
            afterAvailable := inv.availableStock + req.quantity,
            beforeReserved := inv.reservedStock,
            afterReserved := inv.reservedStock - req.quantity,
            reason := "Stock released from cancelled order", operatorId := none })

/-- service.DeductStock: read the row, deduct reserved stock with the
version guard, confirm the matching active reservation, log. -/
def deductStock (db : InvDB) (req : DeductStockRequest) : Except InvErr InvDB :=
  match Sqlc.getInventoryByProductID db req.productId with
  | none => .error .notFound
  | some inv =>
    let upd := Sqlc.deductReservedStock db req.quantity req.productId inv.version
    if upd.2 = 0 then .error .concurrentUpdate
    else
      let cr := Sqlc.confirmReservation upd.1 req.orderId
      if cr.2 = 0 then .error .invalidStateTransition
      else
        .ok (Sqlc.createInventoryLog cr.1
          { productId := req.productId, orderId := some req.orderId,
            changeType := "deduct", quantityChange := -req.quantity,
            beforeAvailable := inv.availableStock,
            afterAvailable := inv.availableStock,
            beforeReserved := inv.reservedStock,
            afterReserved := inv.reservedStock - req.quantity,
            reason := "Stock deducted for confirmed order", operatorId := none })

/-- service.RestockInventory: read the row, add available stock
unconditionally, log. -/
def restockInventory (db : InvDB) (req : RestockRequest) (operatorId : Option Int) :
    Except InvErr InvDB :=
  match Sqlc.getInventoryByProductID db req.productId with
  | none => .error .notFound
  | some inv =>
    let upd := Sqlc.addAvailableStock db req.quantity req.productId
    .ok (Sqlc.createInventoryLog upd.1
      { productId := req.productId, orderId := none,
        changeType := "restock", quantityChange := req.quantity,
        beforeAvailable := inv.availableStock,
        afterAvailable := inv.availableStock + req.quantity,
        beforeReserved := inv.reservedStock,
        afterReserved := inv.reservedStock,
        reason := req.reason, operatorId := operatorId })

/-- service.AdjustStock: read the row, reject a delta that would make
available stock negative, write the new counters with the version
guard, log. -/
def adjustStock (db : InvDB) (req : AdjustStockRequest) (operatorId : Option Int) :
    Except InvErr InvDB :=
  match Sqlc.getInventoryByProductID db req.productId with
  | none => .error .notFound
  | some inv =>
    let newAvailableStock := inv.availableStock + req.quantity
    if newAvailableStock < 0 then .error .invalidAdjustment
    else
      let upd := Sqlc.updateInventoryStock db newAvailableStock inv.reservedStock
        req.productId inv.version
      if upd.2 = 0 then .error .concurrentUpdate
      else
        .ok (Sqlc.createInventoryLog upd.1
          { productId := req.productId, orderId := none,
            changeType := "adjust", quantityChange := req.quantity,
            beforeAvailable := inv.availableStock,
            afterAvailable := newAvailableStock,
            beforeReserved := inv.reservedStock,
            afterReserved := inv.reservedStock,
            reason := req.reason, operatorId := operatorId })

/-- service.CheckStockAvailability: a pure read; isAvailable is
available >= requested. -/
def checkStockAvailability (db : InvDB) (pid qty : Int) : Except InvErr StockCheckResponse :=
  match Sqlc.getInventoryByProductID db pid with
  | none => .error .notFound
  | some inv =>
    .ok { productId := pid, availableStock := inv.availableStock,
          reservedStock := inv.reservedStock,
          isAvailable := decide (qty ≤ inv.availableStock),
          requestedQty := qty }

/-- A Go map from product id to check response, as an association list
with the Go assignment semantics: assigning to an existing key replaces
its value, otherwise the pair is appended. -/
def mapInsert (m : List (Int × StockCheckResponse)) (k : Int) (v : StockCheckResponse) :
    List (Int × StockCheckResponse) :=
  if m.any (fun p => p.1 == k) then m.map (fun p => if p.1 == k then (k, v) else p)
  else m ++ [(k, v)]

/-- Lookup in the association-list rendering of the Go map. -/
def mapLookup (m : List (Int × StockCheckResponse)) (k : Int) : Option StockCheckResponse :=
  (m.find? (fun p => p.1 == k)).map (fun p => p.2)

/-- The loop body of service.BatchCheckStockAvailability: check each
item independently and assign the result into the map keyed by product
id. -/
def batchCheckLoop (db : InvDB) : List StockCheckItem → List (Int × StockCheckResponse) →
    Except InvErr (List (Int × StockCheckResponse))
  | [], acc => .ok acc
  | item :: rest, acc =>
    match checkStockAvailability db item.productId item.quantity with
    | .error e => .error e
    | .ok c => batchCheckLoop db rest (mapInsert acc item.productId c)

/-- service.BatchCheckStockAvailability. -/
def batchCheckStockAvailability (db : InvDB) (items : List StockCheckItem) :
    Except InvErr (List (Int × StockCheckResponse)) :=
  batchCheckLoop db items []

/-- service.CleanupExpiredReservations: fetch up to 100 expired active
reservations and release each one; an individual release failure is
logged and skipped, the run continues. -/
def cleanupExpiredReservations (db : InvDB) (now : Int) : InvDB :=
  (Sqlc.getExpiredReservations db now 100).foldl
    (fun cur r =>
      match releaseStock cur
        { productId := r.productId, quantity := r.quantity, orderId := r.orderId } with
      | .ok db2 => db2
      | .error _ => cur) db

end Svc

/-- A Controller operation, as invoked by callers of the inventory
service.  `reserveRacy` is a ReserveStock whose step-1 read returned
the given snapshot: this renders a read taken before another writer
committed, the situation the version guard exists for.  The remaining
constructors run sequentially (the read inside the transaction sees
the current row). -/
inductive Op where
  | reserve (req : ReserveStockRequest) (ttl now : Int)
  | reserveRacy (req : ReserveStockRequest) (snapshot : Inventory) (ttl now : Int)
  | release (req : ReleaseStockRequest)
  | deduct (req : DeductStockRequest)
  | restock (req : RestockRequest) (operatorId : Option Int)
  | adjust (req : AdjustStockRequest) (operatorId : Option Int)
deriving Repr

/-- Run one operation as its own transaction. -/
def applyOp (db : InvDB) : Op → Except InvErr InvDB
  | .reserve req ttl now => Svc.reserveStock db req ttl now
  | .reserveRacy req snap ttl now => Svc.reserveStockFrom db snap req ttl now
  | .release req => Svc.releaseStock db req
  | .deduct req => Svc.deductStock db req
  | .restock req opId => Svc.restockInventory db req opId
  | .adjust req opId => Svc.adjustStock db req opId

/-- The committed state after one operation: on success the new state,
on error the rolled-back (old) state — ExecTx of store.go. -/
def applyOpCommit (db : InvDB) (op : Op) : InvDB :=
  match applyOp db op with
  | .ok db2 => db2
  | .error _ => db

/-- The committed state after a sequence of operations. -/
def runOps (db : InvDB) (ops : List Op) : InvDB :=
  ops.foldl applyOpCommit db

/-- The product a given operation mutates. -/
def Op.productId : Op → Int
  | .reserve req _ _ => req.productId
  | .reserveRacy req _ _ _ => req.productId
  | .release req => req.productId
  | .deduct req => req.productId
  | .restock req _ => req.productId
  | .adjust req _ => req.productId

/-- The request-level validation the HTTP layer enforces before an
operation reaches the service (dto.go binding tags): the moved
quantity of every stock movement is at least 1; an adjustment delta is
unconstrained. -/
def ValidOp : Op → Prop
  | .reserve req _ _ => 1 ≤ req.quantity
  | .reserveRacy req _ _ _ => 1 ≤ req.quantity
  | .release req => 1 ≤ req.quantity
  | .deduct req => 1 ≤ req.quantity
  | .restock req _ => 1 ≤ req.quantity
  | .adjust _ _ => True

/-- The documented invariant on the inventory table: both counters of
every row are non-negative. -/
def stockNonneg (db : InvDB) : Prop :=
  ∀ r ∈ db.inventories, 0 ≤ r.availableStock ∧ 0 ≤ r.reservedStock

/-- The UNIQUE(product_id) constraint of the inventory table, restricted
to live rows: at most one non-deleted row per product. -/
def uniqueProducts (db : InvDB) : Prop :=
  ∀ pid : Int,
    (db.inventories.filter (fun r => decide (r.productId = pid ∧ r.deleted = false))).length ≤ 1

/-- The version of the live inventory row of a product, when present. -/
def versionOf (db : InvDB) (pid : Int) : Option Int :=
  (Sqlc.getInventoryByProductID db pid).map (fun r => r.version)

/-- The available counter of the live inventory row of a product. -/
def availOf (db : InvDB) (pid : Int) : Option Int :=
  (Sqlc.getInventoryByProductID db pid).map (fun r => r.availableStock)

/-- The reserved counter of the live inventory row of a product. -/
def reservedOf (db : InvDB) (pid : Int) : Option Int :=
  (Sqlc.getInventoryByProductID db pid).map (fun r => r.reservedStock)

/-- A row of the orders table, restricted to the columns PayOrder
reads and writes. -/
structure OrderRow where
  id : Int
  userId : Int
  status : String
  paymentStatus : String
  deleted : Bool := false
deriving Repr, DecidableEq

/-- A row of the order_items table, restricted to the columns PayOrder
uses. -/
structure OrderItemRow where
  orderId : Int
  productId : Int
  quantity : Int
  deleted : Bool := false
deriving Repr, DecidableEq

/-- The order-side database state. -/
structure OrderDB where
  orders : List OrderRow
  orderItems : List OrderItemRow
deriving Repr, DecidableEq

/-- The failures of PayOrder in the order package: the literal errors
of its own checks, or a propagated inventory-service failure. -/
inductive OrderErr where
  | orderNotFound
  | unauthorized
  | cannotPay
  | inv (e : InvErr)
deriving Repr, DecidableEq

namespace Ord

/-- Query GetOrderByID: SELECT * FROM orders WHERE id = $1 AND
deleted_at IS NULL. -/
def getOrderByID (db : OrderDB) (oid : Int) : Option OrderRow :=
  db.orders.find? (fun r => decide (r.id = oid ∧ r.deleted = false))

/-- Query GetOrderItems: SELECT * FROM order_items WHERE
order_id = $1 AND deleted_at IS NULL ORDER BY id. -/
def getOrderItems (db : OrderDB) (oid : Int) : List OrderItemRow :=
  db.orderItems.filter (fun r => decide (r.orderId = oid ∧ r.deleted = false))

/-- Query UpdateOrderStatus: UPDATE orders SET status = $1 WHERE
id = $2 AND deleted_at IS NULL. -/
def updateOrderStatus (db : OrderDB) (status : String) (oid : Int) : OrderDB :=
  ⟨db.orders.map (fun r =>
      if decide (r.id = oid ∧ r.deleted = false) then { r with status := status } else r),
   db.orderItems⟩

/-- The loop of PayOrder step 4: deduct reserved stock for each order
item.  Every call to the inventory service opens and commits its own
inventory transaction, so a deduction that succeeded stays committed
even when a later one fails — the second component is the inventory
state with all the commits that happened. -/
def deductItems (idb : InvDB) : List OrderItemRow → Except InvErr Unit × InvDB
  | [] => (.ok (), idb)
  | it :: rest =>
    match Svc.deductStock idb
      { productId := it.productId, quantity := it.quantity, orderId := it.orderId } with
    | .error e => (.error e, idb)
    | .ok idb2 => deductItems idb2 rest

/-- service.PayOrder of the order package: one ExecTx on the order
store that checks ownership and the pending status, then calls the
inventory service (separate transactions) once per item, then updates
the order status.  The first component is the outcome of the order
transaction (an error rolls its writes back); the second component is
the inventory state including every deduction that committed. -/
def payOrder (odb : OrderDB) (idb : InvDB) (userId orderId : Int) :
    Except OrderErr OrderDB × InvDB :=
  match getOrderByID odb orderId with
  | none => (.error .orderNotFound, idb)
  | some ord =>
    if ord.userId ≠ userId then (.error .unauthorized, idb)
    else if ord.status ≠ "pending" then (.error .cannotPay, idb)
    else
      let items := getOrderItems odb orderId
      match deductItems idb items with
      | (.error e, idb2) => (.error (.inv e), idb2)
      | (.ok _, idb2) => (.ok (updateOrderStatus odb "paid" orderId), idb2)

/-- The pair of committed states after PayOrder: the order transaction
rolls back on error, while the inventory commits of the second
component stand either way. -/
def payOrderCommit (odb : OrderDB) (idb : InvDB) (userId orderId : Int) :
    OrderDB × InvDB :=
  match payOrder odb idb userId orderId with
  | (.ok odb2, idb2) => (odb2, idb2)
  | (.error _, idb2) => (odb, idb2)

end Ord

/-- Substring search over character lists (strings.Contains of the Go
standard library): does the second list occur contiguously in the
first. -/
def charsContain (hay needle : List Char) : Bool :=
  match hay with
  | [] => needle.isEmpty
  | _ :: rest => needle.isPrefixOf hay || charsContain rest needle

/-- strings.Contains. -/
def stringsContains (s sub : String) : Bool :=
  charsContain s.data sub.data

namespace Ord

/-- The retry condition of service.CreateOrder in the order package:
the attempt is retried exactly when the error MESSAGE contains the
substring "concurrent update" or the substring "version"
(strings.Contains on the text, source lines 161-162). -/
def shouldRetry (msg : String) : Bool :=
  stringsContains msg "concurrent update" || stringsContains msg "version"

/-- The retry loop of service.CreateOrder, abstracted over the outcome
of each attempt of createOrderWithRetry (the claim under study is the
retry policy itself).  Arguments: the attempt outcomes, the remaining
attempts (maxRetries = 3 at the start), the zero-based index of the
next attempt, the last retryable error.  Returns the final outcome and
the list of sleeps, in milliseconds, the loop performed
(time.Sleep(10ms * (attempt+1)) after each retryable failure). -/
def createOrderLoop {α : Type} (att : Nat → Except String α) :
    Nat → Nat → Option String → Except String α × List Nat
  | 0, _, lastErr =>
    (.error ("failed after 3 retries: " ++ lastErr.getD ""), [])
  | n + 1, i, _ =>
    match att i with
    | .ok r => (.ok r, [])
    | .error e =>
      if shouldRetry e then
        let rec1 := createOrderLoop att n (i + 1) (some e)
        (rec1.1, 10 * (i + 1) :: rec1.2)
      else (.error e, [])

/-- service.CreateOrder: up to maxRetries = 3 attempts of the whole
createOrderWithRetry sequence. -/
def createOrder {α : Type} (att : Nat → Except String α) : Except String α × List Nat :=
  createOrderLoop att 3 0 none

end Ord

/-! Helper lemmas about lists, the guarded UPDATE statements, and the
transaction wrappers. -/

theorem mem_len_le_one {α : Type} {l : List α} (h : l.length ≤ 1) {a b : α}
    (ha : a ∈ l) (hb : b ∈ l) : a = b := by
  match l with
  | [] => cases ha
  | [x] =>
    rw [List.mem_singleton] at ha hb
    rw [ha, hb]
  | x :: y :: t => simp at h

theorem find?_map_comm {α : Type} (g : α → α) (q : α → Bool)
    (h : ∀ x, q (g x) = q x) : ∀ l : List α, (l.map g).find? q = (l.find? q).map g := by
  intro l
  induction l with
  | nil => rfl
  | cons a t ih =>
    by_cases ha : q a = true
    · rw [List.map_cons, List.find?_cons_of_pos _ (by rw [h a]; exact ha),
        List.find?_cons_of_pos _ ha, Option.map_some']
    · rw [List.map_cons, List.find?_cons_of_neg _ (by rw [h a]; simpa using ha),
        List.find?_cons_of_neg _ (by simpa using ha), ih]

theorem filter_map_comm {α : Type} (g : α → α) (q : α → Bool)
    (h : ∀ x, q (g x) = q x) : ∀ l : List α, (l.map g).filter q = (l.filter q).map g := by
  intro l
  induction l with
  | nil => rfl
  | cons a t ih =>
    by_cases ha : q a = true
    · rw [List.map_cons, List.filter_cons_of_pos (by rw [h a]; exact ha),
        List.filter_cons_of_pos ha, List.map_cons, ih]
    · rw [List.map_cons, List.filter_cons_of_neg (by rw [h a]; simpa using ha),
        List.filter_cons_of_neg (by simpa using ha), ih]

theorem filter_len_ne_zero_of_mem {α : Type} {l : List α} {p : α → Bool} {a : α}
    (ha : a ∈ l) (hp : p a = true) : (l.filter p).length ≠ 0 := by
  have : a ∈ l.filter p := List.mem_filter.mpr ⟨ha, hp⟩
  intro hlen
  rw [List.length_eq_zero] at hlen
  rw [hlen] at this
  cases this

theorem exists_mem_of_filter_len_ne_zero {α : Type} {l : List α} {p : α → Bool}
    (h : (l.filter p).length ≠ 0) : ∃ a ∈ l, p a = true := by
  rcases hne : l.filter p with _ | ⟨a, t⟩
  · rw [hne] at h; simp at h
  · have : a ∈ l.filter p := by rw [hne]; exact List.mem_cons_self a t
    exact ⟨a, (List.mem_filter.mp this).1, (List.mem_filter.mp this).2⟩

theorem liveRow_update_comm (p : Inventory → Bool) (f : Inventory → Inventory)
    (hfid : ∀ r, (f r).productId = r.productId)
    (hfdel : ∀ r, (f r).deleted = r.deleted) (pid : Int) (r : Inventory) :
    decide ((if p r then f r else r).productId = pid ∧ (if p r then f r else r).deleted = false)
      = decide (r.productId = pid ∧ r.deleted = false) := by
  by_cases hp : p r = true
  · simp only [hp, if_true]
    exact decide_eq_decide.mpr (by rw [hfid r, hfdel r])
  · rw [if_neg hp]

theorem updateInventories_matched (db : InvDB) (p : Inventory → Bool)
    (f : Inventory → Inventory) :
    (Sqlc.updateInventories db p f).2 = (db.inventories.filter p).length := rfl

theorem updateInventories_rows (db : InvDB) (p : Inventory → Bool)
    (f : Inventory → Inventory) :
    (Sqlc.updateInventories db p f).1.inventories
      = db.inventories.map (fun r => if p r then f r else r) := rfl

/-- A version-guarded UPDATE that matched at least one row rewrites
exactly the live row of its product: under the uniqueness constraint
the row the enclosing transaction read (the find? result) is the row
the UPDATE rewrote. -/
theorem updateInventories_ok (db : InvDB) (p : Inventory → Bool)
    (f : Inventory → Inventory) (pid : Int)
    (hpq : ∀ r, p r = true → r.productId = pid ∧ r.deleted = false)
    (hfid : ∀ r, (f r).productId = r.productId)
    (hfdel : ∀ r, (f r).deleted = r.deleted)
    (hu : uniqueProducts db)
    (hm : (Sqlc.updateInventories db p f).2 ≠ 0) :
    ∃ r0, Sqlc.getInventoryByProductID db pid = some r0 ∧ p r0 = true ∧
      Sqlc.getInventoryByProductID (Sqlc.updateInventories db p f).1 pid = some (f r0) := by
  rw [updateInventories_matched] at hm
  obtain ⟨rm, hrm_mem, hrm_p⟩ := exists_mem_of_filter_len_ne_zero hm
  have hrm_q : decide (rm.productId = pid ∧ rm.deleted = false) = true :=
    decide_eq_true (hpq rm hrm_p)
  rcases hfind : db.inventories.find?
      (fun r => decide (r.productId = pid ∧ r.deleted = false)) with _ | r0
  · exact absurd hrm_q (List.find?_eq_none.mp hfind rm hrm_mem)
  · have hr0_mem := List.mem_of_find?_eq_some hfind
    have hr0_q := List.find?_some hfind
    have heq : rm = r0 :=
      mem_len_le_one (hu pid) (List.mem_filter.mpr ⟨hrm_mem, hrm_q⟩)
        (List.mem_filter.mpr ⟨hr0_mem, hr0_q⟩)
    refine ⟨r0, hfind, heq ▸ hrm_p, ?_⟩
    show (Sqlc.updateInventories db p f).1.inventories.find? _ = _
    rw [updateInventories_rows,
      find?_map_comm _ _ (liveRow_update_comm p f hfid hfdel pid) db.inventories,
      hfind, Option.map_some']
    rw [if_pos (heq ▸ hrm_p)]

/-- Rows of other products are untouched by a guarded UPDATE whose
predicate pins the product id. -/
theorem updateInventories_other (db : InvDB) (p : Inventory → Bool)
    (f : Inventory → Inventory) (pid : Int)
    (hpq : ∀ r, p r = true → r.productId = pid ∧ r.deleted = false)
    (hfid : ∀ r, (f r).productId = r.productId)
    (hfdel : ∀ r, (f r).deleted = r.deleted)
    (pid2 : Int) (hne : pid2 ≠ pid) :
    Sqlc.getInventoryByProductID (Sqlc.updateInventories db p f).1 pid2
      = Sqlc.getInventoryByProductID db pid2 := by
  show (Sqlc.updateInventories db p f).1.inventories.find? _ = _
  rw [updateInventories_rows,
    find?_map_comm _ _ (liveRow_update_comm p f hfid hfdel pid2) db.inventories]
  rcases hfind : db.inventories.find?
      (fun r => decide (r.productId = pid2 ∧ r.deleted = false)) with _ | r2
  · rw [hfind, Option.map_none']
    exact hfind.symm
  · have hq2 := List.find?_some hfind
    simp only [decide_eq_true_eq] at hq2
    have hp2 : p r2 ≠ true := fun hp => hne (by rw [← hq2.1, (hpq r2 hp).1])
    rw [hfind, Option.map_some']
    show some (if p r2 = true then f r2 else r2) = Sqlc.getInventoryByProductID db pid2
    rw [if_neg hp2]
    show _ = db.inventories.find? (fun r => decide (r.productId = pid2 ∧ r.deleted = false))
    rw [hfind]

theorem updateInventories_nonneg (db : InvDB) (p : Inventory → Bool)
    (f : Inventory → Inventory)
    (hnn : stockNonneg db)
    (hgood : ∀ r ∈ db.inventories, p r = true →
      0 ≤ (f r).availableStock ∧ 0 ≤ (f r).reservedStock) :
    stockNonneg (Sqlc.updateInventories db p f).1 := by
  intro r' hr'
  rw [updateInventories_rows] at hr'
  rcases List.mem_map.mp hr' with ⟨r, hr, rfl⟩
  by_cases hp : p r = true
  · rw [if_pos hp]; exact hgood r hr hp
  · rw [if_neg hp]; exact hnn r hr

theorem updateInventories_unique (db : InvDB) (p : Inventory → Bool)
    (f : Inventory → Inventory)
    (hfid : ∀ r, (f r).productId = r.productId)
    (hfdel : ∀ r, (f r).deleted = r.deleted)
    (hu : uniqueProducts db) :
    uniqueProducts (Sqlc.updateInventories db p f).1 := by
  intro pid
  show ((Sqlc.updateInventories db p f).1.inventories.filter _).length ≤ 1
  rw [updateInventories_rows,
    filter_map_comm _ _ (liveRow_update_comm p f hfid hfdel pid) db.inventories,
    List.length_map]
  exact hu pid

theorem updateInventories_reservations (db : InvDB) (p : Inventory → Bool)
    (f : Inventory → Inventory) :
    (Sqlc.updateInventories db p f).1.reservations = db.reservations := rfl

theorem updateReservations_inventories (db : InvDB) (p : Reservation → Bool)
    (f : Reservation → Reservation) :
    (Sqlc.updateReservations db p f).1.inventories = db.inventories := rfl

theorem createInventoryReservation_inventories (db : InvDB) (r : Reservation) :
    (Sqlc.createInventoryReservation db r).inventories = db.inventories := rfl

theorem createInventoryReservation_reservations (db : InvDB) (r : Reservation) :
    (Sqlc.createInventoryReservation db r).reservations = db.reservations ++ [r] := rfl

theorem createInventoryLog_inventories (db : InvDB) (l : InventoryLog) :
    (Sqlc.createInventoryLog db l).inventories = db.inventories := rfl

theorem createInventoryLog_reservations (db : InvDB) (l : InventoryLog) :
    (Sqlc.createInventoryLog db l).reservations = db.reservations := rfl

/-- Success shape of steps 2-5 of service.ReserveStock. -/
theorem reserveStockFrom_ok_eq {db db' : InvDB} {inv : Inventory} {req : ReserveStockRequest}
    {ttl now : Int} (h : Svc.reserveStockFrom db inv req ttl now = .ok db') :
    ¬ inv.availableStock < req.quantity ∧
    (Sqlc.reserveStock db req.quantity req.productId inv.version).2 ≠ 0 ∧
    db' = Sqlc.createInventoryLog (Sqlc.createInventoryReservation
            (Sqlc.reserveStock db req.quantity req.productId inv.version).1
            ⟨req.productId, req.orderId, req.quantity, "active", now + ttl, false⟩)
          ⟨req.productId, some req.orderId, "reserve", req.quantity, inv.availableStock,
           inv.availableStock - req.quantity, inv.reservedStock, inv.reservedStock + req.quantity,
           "Stock reserved for order", none⟩ := by
  simp only [Svc.reserveStockFrom] at h
  split at h
  · cases h
  · split at h
    · cases h
    · rename_i h1 h2
      exact ⟨h1, h2, (Except.ok.injEq _ _).mp h.symm⟩

/-- Success shape of service.ReserveStock. -/
theorem reserveStock_ok_eq {db db' : InvDB} {req : ReserveStockRequest} {ttl now : Int}
    (h : Svc.reserveStock db req ttl now = .ok db') :
    ∃ inv, Sqlc.getInventoryByProductID db req.productId = some inv ∧
      Svc.reserveStockFrom db inv req ttl now = .ok db' := by
  simp only [Svc.reserveStock] at h
  split at h
  · cases h
  · rename_i inv heq
    exact ⟨inv, heq, h⟩

/-- Success shape of service.ReleaseStock. -/
theorem releaseStock_ok_eq {db db' : InvDB} {req : ReleaseStockRequest}
    (h : Svc.releaseStock db req = .ok db') :
    ∃ inv, Sqlc.getInventoryByProductID db req.productId = some inv ∧
      (Sqlc.releaseReservedStock db req.quantity req.productId inv.version).2 ≠ 0 ∧
      (Sqlc.cancelReservation
        (Sqlc.releaseReservedStock db req.quantity req.productId inv.version).1
        req.orderId).2 ≠ 0 ∧
      db' = Sqlc.createInventoryLog
        (Sqlc.cancelReservation
          (Sqlc.releaseReservedStock db req.quantity req.productId inv.version).1
          req.orderId).1
        ⟨req.productId, some req.orderId, "release", -req.quantity, inv.availableStock,
         inv.availableStock + req.quantity, inv.reservedStock,
         inv.reservedStock - req.quantity,
         "Stock released from cancelled order", none⟩ := by
  simp only [Svc.releaseStock] at h
  split at h
  · cases h
  · rename_i inv heq
    split at h
    · cases h
    · split at h
      · cases h
      · rename_i h1 h2
        exact ⟨inv, heq, h1, h2, (Except.ok.injEq _ _).mp h.symm⟩

/-- Success shape of service.DeductStock. -/
theorem deductStock_ok_eq {db db' : InvDB} {req : DeductStockRequest}
    (h : Svc.deductStock db req = .ok db') :
    ∃ inv, Sqlc.getInventoryByProductID db req.productId = some inv ∧
      (Sqlc.deductReservedStock db req.quantity req.productId inv.version).2 ≠ 0 ∧
      (Sqlc.confirmReservation
        (Sqlc.deductReservedStock db req.quantity req.productId inv.version).1
        req.orderId).2 ≠ 0 ∧
      db' = Sqlc.createInventoryLog
        (Sqlc.confirmReservation
          (Sqlc.deductReservedStock db req.quantity req.productId inv.version).1
          req.orderId).1
        ⟨req.productId, some req.orderId, "deduct", -req.quantity, inv.availableStock,
         inv.availableStock, inv.reservedStock, inv.reservedStock - req.quantity,
         "Stock deducted for confirmed order", none⟩ := by
  simp only [Svc.deductStock] at h
  split at h
  · cases h
  · rename_i inv heq
    split at h
    · cases h
    · split at h
      · cases h
      · rename_i h1 h2
        exact ⟨inv, heq, h1, h2, (Except.ok.injEq _ _).mp h.symm⟩

/-- Success shape of service.RestockInventory. -/
theorem restockInventory_ok_eq {db db' : InvDB} {req : RestockRequest} {opId : Option Int}
    (h : Svc.restockInventory db req opId = .ok db') :
    ∃ inv, Sqlc.getInventoryByProductID db req.productId = some inv ∧
      db' = Sqlc.createInventoryLog
        (Sqlc.addAvailableStock db req.quantity req.productId).1
        ⟨req.productId, none, "restock", req.quantity, inv.availableStock,
         inv.availableStock + req.quantity, inv.reservedStock, inv.reservedStock,
         req.reason, opId⟩ := by
  simp only [Svc.restockInventory] at h
  split at h
  · cases h
  · rename_i inv heq
    exact ⟨inv, heq, (Except.ok.injEq _ _).mp h.symm⟩

theorem stockNonneg_congr {db1 db2 : InvDB} (h : db1.inventories = db2.inventories)
    (hn : stockNonneg db1) : stockNonneg db2 := fun r hr => hn r (h ▸ hr)

theorem uniqueProducts_congr {db1 db2 : InvDB} (h : db1.inventories = db2.inventories)
    (hu : uniqueProducts db1) : uniqueProducts db2 := by
  intro pid
  show (db2.inventories.filter _).length ≤ 1
  rw [← h]
  exact hu pid

theorem versionOf_congr {db1 db2 : InvDB} (h : db1.inventories = db2.inventories)
    (pid : Int) : versionOf db1 pid = versionOf db2 pid := by
  unfold versionOf Sqlc.getInventoryByProductID
  rw [h]

/-- A guarded UPDATE that matched, whose rewrite preserves product id
and deletion flag, bumps the version by one and keeps both counters
non-negative, preserves the database invariants and increments the
version of the live row of its product. -/
theorem guarded_commit {db : InvDB} {p : Inventory → Bool} {f : Inventory → Inventory}
    (pid : Int)
    (hm : (Sqlc.updateInventories db p f).2 ≠ 0)
    (hpq : ∀ r, p r = true → r.productId = pid ∧ r.deleted = false)
    (hfid : ∀ r, (f r).productId = r.productId)
    (hfdel : ∀ r, (f r).deleted = r.deleted)
    (hfver : ∀ r, (f r).version = r.version + 1)
    (hnn : stockNonneg db) (hu : uniqueProducts db)
    (hgood : ∀ r ∈ db.inventories, p r = true →
      0 ≤ (f r).availableStock ∧ 0 ≤ (f r).reservedStock) :
    stockNonneg (Sqlc.updateInventories db p f).1 ∧
    uniqueProducts (Sqlc.updateInventories db p f).1 ∧
    ∃ v, versionOf db pid = some v ∧
      versionOf (Sqlc.updateInventories db p f).1 pid = some (v + 1) := by
  obtain ⟨r0, hget, hp0, hget'⟩ := updateInventories_ok db p f pid hpq hfid hfdel hu hm
  refine ⟨updateInventories_nonneg db p f hnn hgood,
          updateInventories_unique db p f hfid hfdel hu, r0.version, ?_, ?_⟩
  · rw [versionOf, hget, Option.map_some']
  · rw [versionOf, hget', Option.map_some', hfver r0]

/-- Success shape of service.AdjustStock. -/
theorem adjustStock_ok_eq {db db' : InvDB} {req : AdjustStockRequest} {opId : Option Int}
    (h : Svc.adjustStock db req opId = .ok db') :
    ∃ inv, Sqlc.getInventoryByProductID db req.productId = some inv ∧
      ¬ inv.availableStock + req.quantity < 0 ∧
      (Sqlc.updateInventoryStock db (inv.availableStock + req.quantity) inv.reservedStock
        req.productId inv.version).2 ≠ 0 ∧
      db' = Sqlc.createInventoryLog
        (Sqlc.updateInventoryStock db (inv.availableStock + req.quantity) inv.reservedStock
          req.productId inv.version).1
        ⟨req.productId, none, "adjust", req.quantity, inv.availableStock,
         inv.availableStock + req.quantity, inv.reservedStock, inv.reservedStock,
         req.reason, opId⟩ := by
  simp only [Svc.adjustStock] at h
  split at h
  · cases h
  · rename_i inv heq
    split at h
    · cases h
    · split at h
      · cases h
      · rename_i h1 h2
        exact ⟨inv, heq, h1, h2, (Except.ok.injEq _ _).mp h.symm⟩

/-- Any successful Controller operation preserves the stock invariant
and the product uniqueness constraint, and bumps the version of the
live row of its product by exactly one. -/
theorem applyOp_ok {db db' : InvDB} {op : Op}
    (hnn : stockNonneg db) (hu : uniqueProducts db) (hv : ValidOp op)
    (hok : applyOp db op = .ok db') :
    stockNonneg db' ∧ uniqueProducts db' ∧
    ∃ v, versionOf db op.productId = some v ∧
      versionOf db' op.productId = some (v + 1) := by
  cases op with
  | reserve req ttl now =>
    obtain ⟨inv, hget, hfrom⟩ := reserveStock_ok_eq hok
    obtain ⟨hq, hm, hdb⟩ := reserveStockFrom_ok_eq hfrom
    have hval : (1 : Int) ≤ req.quantity := hv
    have hinv : db'.inventories
        = (Sqlc.reserveStock db req.quantity req.productId inv.version).1.inventories := by
      rw [hdb]; rfl
    have hmain := guarded_commit req.productId hm
      (fun r hr => ⟨(of_decide_eq_true hr).1, (of_decide_eq_true hr).2.2.2⟩)
      (fun r => rfl) (fun r => rfl) (fun r => rfl) hnn hu
      (fun r hrmem hr => by
        have hc := of_decide_eq_true hr
        have h1 := (hnn r hrmem).2
        have h2 := hc.2.1
        exact ⟨by show (0:Int) ≤ r.availableStock - req.quantity; omega,
               by show (0:Int) ≤ r.reservedStock + req.quantity; omega⟩)
    exact ⟨stockNonneg_congr hinv.symm hmain.1,
           uniqueProducts_congr hinv.symm hmain.2.1,
           hmain.2.2.imp (fun v hvv =>
             ⟨hvv.1, (versionOf_congr hinv req.productId).trans hvv.2⟩)⟩
  | reserveRacy req snap ttl now =>
    obtain ⟨hq, hm, hdb⟩ := reserveStockFrom_ok_eq hok
    have hval : (1 : Int) ≤ req.quantity := hv
    have hinv : db'.inventories
        = (Sqlc.reserveStock db req.quantity req.productId snap.version).1.inventories := by
      rw [hdb]; rfl
    have hmain := guarded_commit req.productId hm
      (fun r hr => ⟨(of_decide_eq_true hr).1, (of_decide_eq_true hr).2.2.2⟩)
      (fun r => rfl) (fun r => rfl) (fun r => rfl) hnn hu
      (fun r hrmem hr => by
        have hc := of_decide_eq_true hr
        have h1 := (hnn r hrmem).2
        have h2 := hc.2.1
        exact ⟨by show (0:Int) ≤ r.availableStock - req.quantity; omega,
               by show (0:Int) ≤ r.reservedStock + req.quantity; omega⟩)
    exact ⟨stockNonneg_congr hinv.symm hmain.1,
           uniqueProducts_congr hinv.symm hmain.2.1,
           hmain.2.2.imp (fun v hvv =>
             ⟨hvv.1, (versionOf_congr hinv req.productId).trans hvv.2⟩)⟩
  | release req =>
    obtain ⟨inv, hget, hm, hcr, hdb⟩ := releaseStock_ok_eq hok
    have hval : (1 : Int) ≤ req.quantity := hv
    have hinv : db'.inventories
        = (Sqlc.releaseReservedStock db req.quantity req.productId inv.version).1.inventories := by
      rw [hdb]; rfl
    have hmain := guarded_commit req.productId hm
      (fun r hr => ⟨(of_decide_eq_true hr).1, (of_decide_eq_true hr).2.2.2⟩)
      (fun r => rfl) (fun r => rfl) (fun r => rfl) hnn hu
      (fun r hrmem hr => by
        have hc := of_decide_eq_true hr
        have h1 := (hnn r hrmem).1
        have h2 := hc.2.1
        exact ⟨by show (0:Int) ≤ r.availableStock + req.quantity; omega,
               by show (0:Int) ≤ r.reservedStock - req.quantity; omega⟩)
    exact ⟨stockNonneg_congr hinv.symm hmain.1,
           uniqueProducts_congr hinv.symm hmain.2.1,
           hmain.2.2.imp (fun v hvv =>
             ⟨hvv.1, (versionOf_congr hinv req.productId).trans hvv.2⟩)⟩
  | deduct req =>
    obtain ⟨inv, hget, hm, hcr, hdb⟩ := deductStock_ok_eq hok
    have hinv : db'.inventories
        = (Sqlc.deductReservedStock db req.quantity req.productId inv.version).1.inventories := by
      rw [hdb]; rfl
    have hmain := guarded_commit req.productId hm
      (fun r hr => ⟨(of_decide_eq_true hr).1, (of_decide_eq_true hr).2.2.2⟩)
      (fun r => rfl) (fun r => rfl) (fun r => rfl) hnn hu
      (fun r hrmem hr => by
        have hc := of_decide_eq_true hr
        have h1 := (hnn r hrmem).1
        have h2 := hc.2.1
        exact ⟨h1, by show (0:Int) ≤ r.reservedStock - req.quantity; omega⟩)
    exact ⟨stockNonneg_congr hinv.symm hmain.1,
           uniqueProducts_congr hinv.symm hmain.2.1,
           hmain.2.2.imp (fun v hvv =>
             ⟨hvv.1, (versionOf_congr hinv req.productId).trans hvv.2⟩)⟩
  | restock req opId =>
    obtain ⟨inv, hget, hdb⟩ := restockInventory_ok_eq hok
    have hval : (1 : Int) ≤ req.quantity := hv
    have hinv : db'.inventories
        = (Sqlc.addAvailableStock db req.quantity req.productId).1.inventories := by
      rw [hdb]; rfl
    have hget2 : db.inventories.find?
        (fun r => decide (r.productId = req.productId ∧ r.deleted = false)) = some inv := hget
    have htmp := List.find?_some hget2
    have hfacts : inv.productId = req.productId ∧ inv.deleted = false :=
      of_decide_eq_true htmp
    have hm : (Sqlc.addAvailableStock db req.quantity req.productId).2 ≠ 0 := by
      show (db.inventories.filter _).length ≠ 0
      exact filter_len_ne_zero_of_mem (List.mem_of_find?_eq_some hget2) (decide_eq_true hfacts)
    have hmain := guarded_commit req.productId hm
      (fun r hr => of_decide_eq_true hr)
      (fun r => rfl) (fun r => rfl) (fun r => rfl) hnn hu
      (fun r hrmem hr => by
        have h1 := (hnn r hrmem).1
        have h2 := (hnn r hrmem).2
        exact ⟨by show (0:Int) ≤ r.availableStock + req.quantity; omega, h2⟩)
    exact ⟨stockNonneg_congr hinv.symm hmain.1,
           uniqueProducts_congr hinv.symm hmain.2.1,
           hmain.2.2.imp (fun v hvv =>
             ⟨hvv.1, (versionOf_congr hinv req.productId).trans hvv.2⟩)⟩
  | adjust req opId =>
    obtain ⟨inv, hget, hneg, hm, hdb⟩ := adjustStock_ok_eq hok
    have hres0 : (0 : Int) ≤ inv.reservedStock :=
      (hnn inv (List.mem_of_find?_eq_some hget)).2
    have hinv : db'.inventories
        = (Sqlc.updateInventoryStock db (inv.availableStock + req.quantity)
            inv.reservedStock req.productId inv.version).1.inventories := by
      rw [hdb]; rfl
    have hmain := guarded_commit req.productId hm
      (fun r hr => ⟨(of_decide_eq_true hr).1, (of_decide_eq_true hr).2.2⟩)
      (fun r => rfl) (fun r => rfl) (fun r => rfl) hnn hu
      (fun r hrmem hr =>
        ⟨by show (0:Int) ≤ inv.availableStock + req.quantity; omega, hres0⟩)
    exact ⟨stockNonneg_congr hinv.symm hmain.1,
           uniqueProducts_congr hinv.symm hmain.2.1,
           hmain.2.2.imp (fun v hvv =>
             ⟨hvv.1, (versionOf_congr hinv req.productId).trans hvv.2⟩)⟩

theorem applyOpCommit_inv {db : InvDB} {op : Op}
    (h : stockNonneg db ∧ uniqueProducts db) (hv : ValidOp op) :
    stockNonneg (applyOpCommit db op) ∧ uniqueProducts (applyOpCommit db op) := by
  rcases hres : applyOp db op with e | db2
  · simp only [applyOpCommit, hres]
    exact h
  · simp only [applyOpCommit, hres]
    have hstep := applyOp_ok h.1 h.2 hv hres
    exact ⟨hstep.1, hstep.2.1⟩

theorem runOps_take_inv : ∀ (ops : List Op) (db : InvDB),
    stockNonneg db ∧ uniqueProducts db → (∀ op ∈ ops, ValidOp op) →
    ∀ k, stockNonneg (runOps db (ops.take k)) ∧ uniqueProducts (runOps db (ops.take k)) := by
  intro ops
  induction ops with
  | nil =>
    intro db h _ k
    simpa [runOps] using h
  | cons op t ih =>
    intro db h hops k
    cases k with
    | zero => simpa [runOps] using h
    | succ k =>
      have hstep := applyOpCommit_inv h (hops op (List.mem_cons_self op t))
      have hrest := ih (applyOpCommit db op) hstep
        (fun o ho => hops o (List.mem_cons_of_mem _ ho)) k
      simpa [runOps] using hrest

/-- C1: for every InventoryRecord and every sequence of Controller
operations (including reservations racing on a stale version read),
every committed state keeps available and reserved non-negative, and
every successful stock mutation bumps the version of its record by
exactly one, hence strictly increases it; in particular no set of
reservations can drive available stock negative. -/
theorem c1_invariants_and_version_monotone (db : InvDB) (ops : List Op)
    (hnn : stockNonneg db) (hu : uniqueProducts db)
    (hops : ∀ op ∈ ops, ValidOp op) :
    (∀ k, stockNonneg (runOps db (ops.take k))) ∧
    (∀ k op, ops.get? k = some op →
      ∀ db2, applyOp (runOps db (ops.take k)) op = .ok db2 →
        ∃ v, versionOf (runOps db (ops.take k)) op.productId = some v ∧
             versionOf db2 op.productId = some (v + 1)) := by
  refine ⟨fun k => (runOps_take_inv ops db ⟨hnn, hu⟩ hops k).1, ?_⟩
  intro k op hop db2 happ
  have hmem : op ∈ ops := List.get?_mem hop
  have hpre := runOps_take_inv ops db ⟨hnn, hu⟩ hops k
  exact (applyOp_ok hpre.1 hpre.2 (hops op hmem) happ).2.2

/-- Witness for C1 at a concrete record and operation sequence. -/
theorem c1_witness :
    stockNonneg ⟨[⟨1,10,0,0,false⟩],[],[]⟩ ∧
    uniqueProducts ⟨[⟨1,10,0,0,false⟩],[],[]⟩ ∧
    (∀ op ∈ [Op.reserve ⟨1,4,100⟩ 30 0, Op.deduct ⟨1,4,100⟩], ValidOp op) ∧
    ∀ k, stockNonneg (runOps ⟨[⟨1,10,0,0,false⟩],[],[]⟩
      ([Op.reserve ⟨1,4,100⟩ 30 0, Op.deduct ⟨1,4,100⟩].take k)) := by
  have h1 : stockNonneg ⟨[⟨1,10,0,0,false⟩],[],[]⟩ := by
    intro r hr
    cases hr with
    | head => exact ⟨by decide, by decide⟩
    | tail _ h => cases h
  have h2 : uniqueProducts ⟨[⟨1,10,0,0,false⟩],[],[]⟩ :=
    fun pid => List.length_filter_le _ _
  have h3 : ∀ op ∈ [Op.reserve ⟨1,4,100⟩ 30 0, Op.deduct ⟨1,4,100⟩], ValidOp op := by
    intro op hop
    rcases List.mem_cons.mp hop with rfl | hop2
    · exact (show (1:Int) ≤ 4 by decide)
    · rcases List.mem_cons.mp hop2 with rfl | hop3
      · exact (show (1:Int) ≤ 4 by decide)
      · exact absurd hop3 (List.not_mem_nil op)
  exact ⟨h1, h2, h3,
    (c1_invariants_and_version_monotone ⟨[⟨1,10,0,0,false⟩],[],[]⟩
      [Op.reserve ⟨1,4,100⟩ 30 0, Op.deduct ⟨1,4,100⟩] h1 h2 h3).1⟩

/-- C2: a ReserveStock whose version-guarded update matches zero rows
fails with ConcurrentUpdate; and in scenario D, of two Reserve(qty=3)
calls against available=5 that both read version 0, the one that
commits second fails ConcurrentUpdate while the first leaves
available=2, version=1. -/
theorem c2_zero_rows_concurrent_update
    (db : InvDB) (inv : Inventory) (req : ReserveStockRequest) (ttl now : Int)
    (hqty : ¬ inv.availableStock < req.quantity)
    (hzero : (Sqlc.reserveStock db req.quantity req.productId inv.version).2 = 0) :
    Svc.reserveStockFrom db inv req ttl now = .error .concurrentUpdate ∧
    (Svc.reserveStockFrom ⟨[⟨1,5,0,0,false⟩],[],[]⟩ ⟨1,5,0,0,false⟩ ⟨1,3,100⟩ 30 0
        = .ok ⟨[⟨1,2,3,1,false⟩], [⟨1,100,3,"active",30,false⟩],
               [⟨1, some 100, "reserve", 3, 5, 2, 0, 3, "Stock reserved for order", none⟩]⟩ ∧
     availOf ⟨[⟨1,2,3,1,false⟩], [⟨1,100,3,"active",30,false⟩],
              [⟨1, some 100, "reserve", 3, 5, 2, 0, 3, "Stock reserved for order", none⟩]⟩ 1
        = some 2 ∧
     versionOf ⟨[⟨1,2,3,1,false⟩], [⟨1,100,3,"active",30,false⟩],
              [⟨1, some 100, "reserve", 3, 5, 2, 0, 3, "Stock reserved for order", none⟩]⟩ 1
        = some 1 ∧
     Svc.reserveStockFrom ⟨[⟨1,2,3,1,false⟩], [⟨1,100,3,"active",30,false⟩],
              [⟨1, some 100, "reserve", 3, 5, 2, 0, 3, "Stock reserved for order", none⟩]⟩
        ⟨1,5,0,0,false⟩ ⟨1,3,101⟩ 30 0 = .error .concurrentUpdate) := by
  constructor
  · unfold Svc.reserveStockFrom
    rw [if_neg hqty]
    simp only [hzero, if_pos]
  · exact ⟨rfl, rfl, rfl, rfl⟩

/-- Witness for C2: the loser of the concrete race satisfies the
hypotheses of the theorem and fails ConcurrentUpdate. -/
theorem c2_witness :
    (¬ (5:Int) < 3) ∧
    (Sqlc.reserveStock ⟨[⟨1,2,3,1,false⟩], [⟨1,100,3,"active",30,false⟩],
        [⟨1, some 100, "reserve", 3, 5, 2, 0, 3, "Stock reserved for order", none⟩]⟩
      3 1 0).2 = 0 ∧
    Svc.reserveStockFrom ⟨[⟨1,2,3,1,false⟩], [⟨1,100,3,"active",30,false⟩],
        [⟨1, some 100, "reserve", 3, 5, 2, 0, 3, "Stock reserved for order", none⟩]⟩
      ⟨1,5,0,0,false⟩ ⟨1,3,101⟩ 30 0 = .error .concurrentUpdate :=
  ⟨by decide, by decide,
   (c2_zero_rows_concurrent_update
     ⟨[⟨1,2,3,1,false⟩], [⟨1,100,3,"active",30,false⟩],
      [⟨1, some 100, "reserve", 3, 5, 2, 0, 3, "Stock reserved for order", none⟩]⟩
     ⟨1,5,0,0,false⟩ ⟨1,3,101⟩ 30 0 (by decide) (by decide)).1⟩

/-- C7: scenario A: reserving 4 units of product 1 from
available=10, reserved=0, version=0 commits available=6, reserved=4,
version=1, creates an active Reservation expiring at now + ttl and
appends one log entry with before/after available 10/6 and
before/after reserved 0/4. -/
theorem c7_scenario_a :
    Svc.reserveStock ⟨[⟨1,10,0,0,false⟩],[],[]⟩ ⟨1,4,100⟩ 30 1000 =
      .ok ⟨[⟨1,6,4,1,false⟩], [⟨1,100,4,"active",1030,false⟩],
           [⟨1, some 100, "reserve", 4, 10, 6, 0, 4, "Stock reserved for order", none⟩]⟩ := rfl

/-- C8: a ReserveStock against a record with available less than the
requested quantity fails with InsufficientStock and the committed
state is unchanged: no counter, version, reservation or log changes. -/
theorem c8_insufficient_stock_no_change (db : InvDB) (req : ReserveStockRequest)
    (ttl now : Int) (inv : Inventory)
    (hget : Sqlc.getInventoryByProductID db req.productId = some inv)
    (hlt : inv.availableStock < req.quantity) :
    Svc.reserveStock db req ttl now = .error .insufficientStock ∧
    runOps db [Op.reserve req ttl now] = db := by
  have h1 : Svc.reserveStock db req ttl now = .error .insufficientStock := by
    unfold Svc.reserveStock
    simp only [hget]
    unfold Svc.reserveStockFrom
    rw [if_pos hlt]
  refine ⟨h1, ?_⟩
  show applyOpCommit db (Op.reserve req ttl now) = db
  simp only [applyOpCommit, applyOp, h1]

/-- Witness for C8 at available=5, quantity=6. -/
theorem c8_witness :
    Sqlc.getInventoryByProductID ⟨[⟨1,5,0,0,false⟩],[],[]⟩ 1 = some ⟨1,5,0,0,false⟩ ∧
    ((5:Int) < 6) ∧
    Svc.reserveStock ⟨[⟨1,5,0,0,false⟩],[],[]⟩ ⟨1,6,100⟩ 30 0 = .error .insufficientStock ∧
    runOps ⟨[⟨1,5,0,0,false⟩],[],[]⟩ [Op.reserve ⟨1,6,100⟩ 30 0] = ⟨[⟨1,5,0,0,false⟩],[],[]⟩ := by
  have h := c8_insufficient_stock_no_change ⟨[⟨1,5,0,0,false⟩],[],[]⟩ ⟨1,6,100⟩ 30 0
    ⟨1,5,0,0,false⟩ (by decide) (by decide)
  exact ⟨by decide, by decide, h.1, h.2⟩

/-- C4: the code contradicts the claim (and its own README): one
Reaper run over a single expired active Reservation does release its
stock (available 6 to 10, reserved 4 to 0), but the Reservation ends
in status cancelled, not expired, because CleanupExpiredReservations
releases through ReleaseStock, which runs CancelReservation. -/
theorem c4_reaper_sets_cancelled :
    Svc.cleanupExpiredReservations ⟨[⟨1,6,4,1,false⟩],[⟨1,100,4,"active",5,false⟩],[]⟩ 10
      = ⟨[⟨1,10,0,2,false⟩], [⟨1,100,4,"cancelled",5,false⟩],
         [⟨1, some 100, "release", -4, 6, 10, 4, 0,
           "Stock released from cancelled order", none⟩]⟩ ∧
    ("cancelled" : String) ≠ "expired" := ⟨rfl, by decide⟩

/-- C5 counterexample: the claim fails in two ways.  After scenario A
and then B (reserve 4, deduct 4, the reservation now confirmed and
reserved back to 0), a second Deduct of 4 on the non-active
reservation fails with the guarded-update (ConcurrentUpdate) failure,
not with InvalidStateTransition.  Worse, the status transitions are
keyed on order_id alone, so when the same order still holds an active
reservation for another product, a Deduct naming the confirmed
(product 1, order 100) reservation is silently accepted: it commits,
drains reserved stock of product 1 from 4 to 0 and confirms the
sibling (product 2, order 100) reservation instead. -/
theorem c5_nonactive_kind_cx :
    Svc.deductStock ⟨[⟨1,6,0,2,false⟩],[⟨1,100,4,"confirmed",1030,false⟩],[]⟩ ⟨1,4,100⟩
      = .error .concurrentUpdate ∧
    InvErr.concurrentUpdate ≠ InvErr.invalidStateTransition ∧
    Svc.deductStock
      ⟨[⟨1,6,4,2,false⟩],
       [⟨1,100,4,"confirmed",1030,false⟩, ⟨2,100,5,"active",1030,false⟩], []⟩ ⟨1,4,100⟩
      = .ok ⟨[⟨1,6,0,3,false⟩],
             [⟨1,100,4,"confirmed",1030,false⟩, ⟨2,100,5,"confirmed",1030,false⟩],
             [⟨1, some 100, "deduct", -4, 6, 6, 4, 0,
               "Stock deducted for confirmed order", none⟩]⟩ ∧
    reservedOf ⟨[⟨1,6,0,3,false⟩],
             [⟨1,100,4,"confirmed",1030,false⟩, ⟨2,100,5,"confirmed",1030,false⟩],
             [⟨1, some 100, "deduct", -4, 6, 6, 4, 0,
               "Stock deducted for confirmed order", none⟩]⟩ 1
      ≠ reservedOf ⟨[⟨1,6,4,2,false⟩],
             [⟨1,100,4,"confirmed",1030,false⟩, ⟨2,100,5,"active",1030,false⟩], []⟩ 1 :=
  ⟨rfl, by decide, rfl, by decide⟩

/-- C5 amended: the reservation status transitions of Deduct and
Release are keyed on order_id alone, so the outcome of a call naming a
non-active (productId, orderId) reservation depends on the rest of the
order.  When the order holds no active reservation at all, the call
always fails and never changes the committed state: with
InvalidStateTransition when the reserved-stock guard still matches
(reserved at least the quantity), and with the guarded-update
(ConcurrentUpdate) failure otherwise.  But when some reservation of
the same order is still active and reserved covers the quantity, the
call is silently accepted: Deduct commits and drains reserved stock,
Release commits and moves the quantity from reserved back to
available, in both cases transitioning the sibling reservation. -/
theorem c5_deduct_release_order_keyed (db : InvDB) (inv : Inventory)
    (pid oid qty : Int)
    (hu : uniqueProducts db)
    (hget : Sqlc.getInventoryByProductID db pid = some inv) :
    ((∀ rv ∈ db.reservations, rv.orderId = oid → rv.deleted = false →
        rv.status ≠ "active") →
      Svc.deductStock db ⟨pid, qty, oid⟩
        = .error (if qty ≤ inv.reservedStock then InvErr.invalidStateTransition
                  else InvErr.concurrentUpdate) ∧
      Svc.releaseStock db ⟨pid, qty, oid⟩
        = .error (if qty ≤ inv.reservedStock then InvErr.invalidStateTransition
                  else InvErr.concurrentUpdate) ∧
      runOps db [Op.deduct ⟨pid, qty, oid⟩] = db ∧
      runOps db [Op.release ⟨pid, qty, oid⟩] = db) ∧
    ((∃ rv ∈ db.reservations, rv.orderId = oid ∧ rv.deleted = false ∧
        rv.status = "active") →
      qty ≤ inv.reservedStock →
      (∃ db2, Svc.deductStock db ⟨pid, qty, oid⟩ = .ok db2 ∧
        reservedOf db2 pid = some (inv.reservedStock - qty)) ∧
      (∃ db3, Svc.releaseStock db ⟨pid, qty, oid⟩ = .ok db3 ∧
        availOf db3 pid = some (inv.availableStock + qty) ∧
        reservedOf db3 pid = some (inv.reservedStock - qty))) := by
  have hgetL : db.inventories.find?
      (fun r => decide (r.productId = pid ∧ r.deleted = false)) = some inv := hget
  have htmp := List.find?_some hgetL
  have hlive : inv.productId = pid ∧ inv.deleted = false := of_decide_eq_true htmp
  have hmem := List.mem_of_find?_eq_some hgetL
  constructor
  · intro hact
    have hnoact : ∀ (dbr : List Reservation), dbr = db.reservations →
        (dbr.filter (fun r =>
          decide (r.orderId = oid ∧ r.status = "active" ∧ r.deleted = false))).length = 0 := by
      intro dbr hdbr
      subst hdbr
      rw [List.length_eq_zero, List.filter_eq_nil_iff]
      intro rv hrv hdec
      have hc := of_decide_eq_true hdec
      exact hact rv hrv hc.1 hc.2.2 hc.2.1
    by_cases hq : qty ≤ inv.reservedStock
    · have hmD : (Sqlc.deductReservedStock db qty pid inv.version).2 ≠ 0 := by
        show (db.inventories.filter _).length ≠ 0
        exact filter_len_ne_zero_of_mem hmem (decide_eq_true ⟨hlive.1, hq, rfl, hlive.2⟩)
      have hmR : (Sqlc.releaseReservedStock db qty pid inv.version).2 ≠ 0 := by
        show (db.inventories.filter _).length ≠ 0
        exact filter_len_ne_zero_of_mem hmem (decide_eq_true ⟨hlive.1, hq, rfl, hlive.2⟩)
      have hcrD : (Sqlc.confirmReservation
          (Sqlc.deductReservedStock db qty pid inv.version).1 oid).2 = 0 :=
        hnoact _ rfl
      have hcrR : (Sqlc.cancelReservation
          (Sqlc.releaseReservedStock db qty pid inv.version).1 oid).2 = 0 :=
        hnoact _ rfl
      have hD : Svc.deductStock db ⟨pid, qty, oid⟩ = .error .invalidStateTransition := by
        unfold Svc.deductStock
        simp only [hget]
        rw [if_neg hmD, if_pos hcrD]
      have hR : Svc.releaseStock db ⟨pid, qty, oid⟩ = .error .invalidStateTransition := by
        unfold Svc.releaseStock
        simp only [hget]
        rw [if_neg hmR, if_pos hcrR]
      rw [if_pos hq]
      refine ⟨hD, hR, ?_, ?_⟩
      · show applyOpCommit db (Op.deduct ⟨pid, qty, oid⟩) = db
        simp only [applyOpCommit, applyOp, hD]
      · show applyOpCommit db (Op.release ⟨pid, qty, oid⟩) = db
        simp only [applyOpCommit, applyOp, hR]
    · have hguard : ∀ r ∈ db.inventories,
          ¬ (decide (r.productId = pid ∧ qty ≤ r.reservedStock ∧
              r.version = inv.version ∧ r.deleted = false)) = true := by
        intro r hr hdec
        have hc := of_decide_eq_true hdec
        have hrlive : r ∈ db.inventories.filter
            (fun r => decide (r.productId = pid ∧ r.deleted = false)) :=
          List.mem_filter.mpr ⟨hr, decide_eq_true ⟨hc.1, hc.2.2.2⟩⟩
        have hinvlive : inv ∈ db.inventories.filter
            (fun r => decide (r.productId = pid ∧ r.deleted = false)) :=
          List.mem_filter.mpr ⟨hmem, decide_eq_true ⟨hlive.1, hlive.2⟩⟩
        exact hq ((mem_len_le_one (hu pid) hrlive hinvlive) ▸ hc.2.1)
      have hm0 : (db.inventories.filter (fun r =>
          decide (r.productId = pid ∧ qty ≤ r.reservedStock ∧
            r.version = inv.version ∧ r.deleted = false))).length = 0 := by
        rw [List.length_eq_zero, List.filter_eq_nil_iff]
        exact hguard
      have hm0D : (Sqlc.deductReservedStock db qty pid inv.version).2 = 0 := hm0
      have hm0R : (Sqlc.releaseReservedStock db qty pid inv.version).2 = 0 := hm0
      have hD : Svc.deductStock db ⟨pid, qty, oid⟩ = .error .concurrentUpdate := by
        unfold Svc.deductStock
        simp only [hget]
        rw [if_pos hm0D]
      have hR : Svc.releaseStock db ⟨pid, qty, oid⟩ = .error .concurrentUpdate := by
        unfold Svc.releaseStock
        simp only [hget]
        rw [if_pos hm0R]
      rw [if_neg hq]
      refine ⟨hD, hR, ?_, ?_⟩
      · show applyOpCommit db (Op.deduct ⟨pid, qty, oid⟩) = db
        simp only [applyOpCommit, applyOp, hD]
      · show applyOpCommit db (Op.release ⟨pid, qty, oid⟩) = db
        simp only [applyOpCommit, applyOp, hR]
  · intro hsib hq
    obtain ⟨rv, hrvmem, hrv⟩ := hsib
    have hmD : (Sqlc.deductReservedStock db qty pid inv.version).2 ≠ 0 := by
      show (db.inventories.filter _).length ≠ 0
      exact filter_len_ne_zero_of_mem hmem (decide_eq_true ⟨hlive.1, hq, rfl, hlive.2⟩)
    have hmR : (Sqlc.releaseReservedStock db qty pid inv.version).2 ≠ 0 := by
      show (db.inventories.filter _).length ≠ 0
      exact filter_len_ne_zero_of_mem hmem (decide_eq_true ⟨hlive.1, hq, rfl, hlive.2⟩)
    have hcrD : (Sqlc.confirmReservation
        (Sqlc.deductReservedStock db qty pid inv.version).1 oid).2 ≠ 0 := by
      show (db.reservations.filter _).length ≠ 0
      exact filter_len_ne_zero_of_mem hrvmem (decide_eq_true ⟨hrv.1, hrv.2.2, hrv.2.1⟩)
    have hcrR : (Sqlc.cancelReservation
        (Sqlc.releaseReservedStock db qty pid inv.version).1 oid).2 ≠ 0 := by
      show (db.reservations.filter _).length ≠ 0
      exact filter_len_ne_zero_of_mem hrvmem (decide_eq_true ⟨hrv.1, hrv.2.2, hrv.2.1⟩)
    obtain ⟨r0, hget0, hp0, hget1⟩ := updateInventories_ok db
      (fun r => decide (r.productId = pid ∧ qty ≤ r.reservedStock ∧
        r.version = inv.version ∧ r.deleted = false))
      (fun r => { r with reservedStock := r.reservedStock - qty,
                         version := r.version + 1 })
      pid
      (fun r hr => ⟨(of_decide_eq_true hr).1, (of_decide_eq_true hr).2.2.2⟩)
      (fun r => rfl) (fun r => rfl) hu hmD
    have hr0 : inv = r0 := by
      rw [hget] at hget0
      exact (Option.some.injEq _ _).mp hget0
    obtain ⟨r1, hget10, hp1, hget11⟩ := updateInventories_ok db
      (fun r => decide (r.productId = pid ∧ qty ≤ r.reservedStock ∧
        r.version = inv.version ∧ r.deleted = false))
      (fun r => { r with availableStock := r.availableStock + qty,
                         reservedStock := r.reservedStock - qty,
                         version := r.version + 1 })
      pid
      (fun r hr => ⟨(of_decide_eq_true hr).1, (of_decide_eq_true hr).2.2.2⟩)
      (fun r => rfl) (fun r => rfl) hu hmR
    have hr1 : inv = r1 := by
      rw [hget] at hget10
      exact (Option.some.injEq _ _).mp hget10
    constructor
    · refine ⟨Sqlc.createInventoryLog
        (Sqlc.confirmReservation
          (Sqlc.deductReservedStock db qty pid inv.version).1 oid).1
        ⟨pid, some oid, "deduct", -qty, inv.availableStock, inv.availableStock,
         inv.reservedStock, inv.reservedStock - qty,
         "Stock deducted for confirmed order", none⟩, ?_, ?_⟩
      · unfold Svc.deductStock
        simp only [hget]
        rw [if_neg hmD, if_neg hcrD]
      · show (Sqlc.getInventoryByProductID _ pid).map _ = _
        have hfin : Sqlc.getInventoryByProductID
            (Sqlc.createInventoryLog
              (Sqlc.confirmReservation
                (Sqlc.deductReservedStock db qty pid inv.version).1 oid).1
              ⟨pid, some oid, "deduct", -qty, inv.availableStock, inv.availableStock,
               inv.reservedStock, inv.reservedStock - qty,
               "Stock deducted for confirmed order", none⟩) pid
            = some { r0 with reservedStock := r0.reservedStock - qty,
                             version := r0.version + 1 } := hget1
        rw [hfin, Option.map_some', ← hr0]
    · refine ⟨Sqlc.createInventoryLog
        (Sqlc.cancelReservation
          (Sqlc.releaseReservedStock db qty pid inv.version).1 oid).1
        ⟨pid, some oid, "release", -qty, inv.availableStock,
         inv.availableStock + qty, inv.reservedStock, inv.reservedStock - qty,
         "Stock released from cancelled order", none⟩, ?_, ?_, ?_⟩
      · unfold Svc.releaseStock
        simp only [hget]
        rw [if_neg hmR, if_neg hcrR]
      · show (Sqlc.getInventoryByProductID _ pid).map _ = _
        have hfin : Sqlc.getInventoryByProductID
            (Sqlc.createInventoryLog
              (Sqlc.cancelReservation
                (Sqlc.releaseReservedStock db qty pid inv.version).1 oid).1
              ⟨pid, some oid, "release", -qty, inv.availableStock,
               inv.availableStock + qty, inv.reservedStock, inv.reservedStock - qty,
               "Stock released from cancelled order", none⟩) pid
            = some { r1 with availableStock := r1.availableStock + qty,
                             reservedStock := r1.reservedStock - qty,
                             version := r1.version + 1 } := hget11
        rw [hfin, Option.map_some', ← hr1]
      · show (Sqlc.getInventoryByProductID _ pid).map _ = _
        have hfin : Sqlc.getInventoryByProductID
            (Sqlc.createInventoryLog
              (Sqlc.cancelReservation
                (Sqlc.releaseReservedStock db qty pid inv.version).1 oid).1
              ⟨pid, some oid, "release", -qty, inv.availableStock,
               inv.availableStock + qty, inv.reservedStock, inv.reservedStock - qty,
               "Stock released from cancelled order", none⟩) pid
            = some { r1 with availableStock := r1.availableStock + qty,
                             reservedStock := r1.reservedStock - qty,
                             version := r1.version + 1 } := hget11
        rw [hfin, Option.map_some', ← hr1]

/-- Witness for the amended C5: the no-active-reservation regime at
the kind counterexample state, and the silent-acceptance regime at the
sibling-reservation state. -/
theorem c5_witness :
    (uniqueProducts ⟨[⟨1,6,0,2,false⟩],[⟨1,100,4,"confirmed",1030,false⟩],[]⟩ ∧
     Sqlc.getInventoryByProductID
        ⟨[⟨1,6,0,2,false⟩],[⟨1,100,4,"confirmed",1030,false⟩],[]⟩ 1
       = some ⟨1,6,0,2,false⟩ ∧
     (∀ rv ∈ ([⟨1,100,4,"confirmed",1030,false⟩] : List Reservation),
       rv.orderId = 100 → rv.deleted = false → rv.status ≠ "active") ∧
     Svc.deductStock ⟨[⟨1,6,0,2,false⟩],[⟨1,100,4,"confirmed",1030,false⟩],[]⟩ ⟨1,4,100⟩
       = .error (if (4:Int) ≤ 0 then InvErr.invalidStateTransition
                 else InvErr.concurrentUpdate) ∧
     (if (4:Int) ≤ 0 then InvErr.invalidStateTransition else InvErr.concurrentUpdate)
       = InvErr.concurrentUpdate) ∧
    (uniqueProducts ⟨[⟨1,6,4,2,false⟩],
        [⟨1,100,4,"confirmed",1030,false⟩, ⟨2,100,5,"active",1030,false⟩], []⟩ ∧
     (∃ rv ∈ ([⟨1,100,4,"confirmed",1030,false⟩,
               ⟨2,100,5,"active",1030,false⟩] : List Reservation),
       rv.orderId = 100 ∧ rv.deleted = false ∧ rv.status = "active") ∧
     ((4:Int) ≤ 4) ∧
     ∃ db2, Svc.deductStock ⟨[⟨1,6,4,2,false⟩],
         [⟨1,100,4,"confirmed",1030,false⟩, ⟨2,100,5,"active",1030,false⟩], []⟩ ⟨1,4,100⟩
       = .ok db2 ∧ reservedOf db2 1 = some (4 - 4)) := by
  have huA : uniqueProducts ⟨[⟨1,6,0,2,false⟩],[⟨1,100,4,"confirmed",1030,false⟩],[]⟩ :=
    fun pid => List.length_filter_le _ _
  have hactA : ∀ rv ∈ ([⟨1,100,4,"confirmed",1030,false⟩] : List Reservation),
      rv.orderId = 100 → rv.deleted = false → rv.status ≠ "active" := by
    intro rv hrv
    cases hrv with
    | head =>
      intro _ _ h
      exact absurd h (by decide)
    | tail _ h => cases h
  have huB : uniqueProducts ⟨[⟨1,6,4,2,false⟩],
      [⟨1,100,4,"confirmed",1030,false⟩, ⟨2,100,5,"active",1030,false⟩], []⟩ :=
    fun pid => List.length_filter_le _ _
  have hsibB : ∃ rv ∈ ([⟨1,100,4,"confirmed",1030,false⟩,
      ⟨2,100,5,"active",1030,false⟩] : List Reservation),
      rv.orderId = 100 ∧ rv.deleted = false ∧ rv.status = "active" :=
    ⟨⟨2,100,5,"active",1030,false⟩,
     List.mem_cons_of_mem _ (List.mem_cons_self _ _), rfl, rfl, rfl⟩
  refine ⟨⟨huA, by decide, hactA,
    ((c5_deduct_release_order_keyed
      ⟨[⟨1,6,0,2,false⟩],[⟨1,100,4,"confirmed",1030,false⟩],[]⟩
      ⟨1,6,0,2,false⟩ 1 100 4 huA (by decide)).1 hactA).1, by decide⟩,
    huB, hsibB, by decide,
    ((c5_deduct_release_order_keyed
      ⟨[⟨1,6,4,2,false⟩],
       [⟨1,100,4,"confirmed",1030,false⟩, ⟨2,100,5,"active",1030,false⟩], []⟩
      ⟨1,6,4,2,false⟩ 1 100 4 huB (by decide)).2 hsibB (by decide)).1⟩

theorem createOrderLoop_zero {α : Type} (att : Nat → Except String α) (i : Nat)
    (le : Option String) :
    Ord.createOrderLoop att 0 i le
      = (.error ("failed after 3 retries: " ++ le.getD ""), []) := rfl

theorem createOrderLoop_step {α : Type} (att : Nat → Except String α)
    (m n i j s : Nat) (le : Option String)
    (hm : m = n + 1) (hj : j = i + 1) (hs : s = 10 * j) :
    Ord.createOrderLoop att m i le
      = match att i with
        | .ok r => (.ok r, [])
        | .error e =>
          if Ord.shouldRetry e then
            ((Ord.createOrderLoop att n j (some e)).1,
             s :: (Ord.createOrderLoop att n j (some e)).2)
          else (.error e, []) := by
  subst hm
  subst hj
  subst hs
  rfl

/-- C6 counterexample: the retry decision is a substring match on the
error message, not an inspection of the error kind: an attempt that
fails in the product-fetch step (no guarded update ran, so the failure
kind is not ConcurrentUpdate) whose message happens to contain the
word version is retried three times with backoff and surfaces as the
retry-exhaustion error, instead of aborting immediately without retry
as the claim requires of every non-ConcurrentUpdate failure kind. -/
theorem c6_retry_by_message_cx :
    Ord.createOrder (α := Unit)
      (fun _ => .error "failed to get products: schema version mismatch")
      = (.error "failed after 3 retries: failed to get products: schema version mismatch",
         [10, 20, 30]) ∧
    ([10, 20, 30] : List Nat) ≠ [] := ⟨rfl, by decide⟩

/-- C6 amended: CreateOrder retries the whole attempt when the error
message contains the substring concurrent update or the substring
version (string matching, not error kind), sleeping 10ms times the
attempt number between attempts; any failure whose message avoids both
substrings aborts immediately with no retry and no sleep; and when all
3 attempts fail on a retryable error the caller receives the distinct
failed-after-3-retries error wrapping the last underlying error. -/
theorem c6_retry_policy {α : Type} (att : Nat → Except String α) :
    (∀ e, att 0 = .error e → Ord.shouldRetry e = false →
      Ord.createOrder att = (.error e, [])) ∧
    (∀ e0 e1 e2, att 0 = .error e0 → att 1 = .error e1 → att 2 = .error e2 →
      Ord.shouldRetry e0 = true → Ord.shouldRetry e1 = true → Ord.shouldRetry e2 = true →
      Ord.createOrder att = (.error ("failed after 3 retries: " ++ e2), [10, 20, 30])) ∧
    (∀ e0 r, att 0 = .error e0 → Ord.shouldRetry e0 = true → att 1 = .ok r →
      Ord.createOrder att = (.ok r, [10])) := by
  refine ⟨?_, ?_, ?_⟩
  · intro e h0 hns
    show Ord.createOrderLoop att 3 0 none = _
    rw [createOrderLoop_step att 3 2 0 1 10 none rfl rfl rfl]
    simp only [h0]
    rw [if_neg (by rw [hns]; exact Bool.false_ne_true)]
  · intro e0 e1 e2 h0 h1 h2 hr0 hr1 hr2
    show Ord.createOrderLoop att 3 0 none = _
    rw [createOrderLoop_step att 3 2 0 1 10 none rfl rfl rfl]
    simp only [h0]
    rw [if_pos hr0]
    rw [createOrderLoop_step att 2 1 1 2 20 (some e0) rfl rfl rfl]
    simp only [h1]
    rw [if_pos hr1]
    rw [createOrderLoop_step att 1 0 2 3 30 (some e1) rfl rfl rfl]
    simp only [h2]
    rw [if_pos hr2]
    rw [createOrderLoop_zero att 3 (some e2)]
    rfl
  · intro e0 r h0 hr0 h1
    show Ord.createOrderLoop att 3 0 none = _
    rw [createOrderLoop_step att 3 2 0 1 10 none rfl rfl rfl]
    simp only [h0]
    rw [if_pos hr0]
    rw [createOrderLoop_step att 2 1 1 2 20 (some e0) rfl rfl rfl]
    simp only [h1]

/-- Witness for the amended C6: a wrapped reserve-stock conflict
message is retried to exhaustion. -/
theorem c6_witness :
    Ord.shouldRetry "failed to reserve stock (possible concurrent update): conflict" = true ∧
    Ord.createOrder (α := Unit)
      (fun _ => .error "failed to reserve stock (possible concurrent update): conflict")
      = (.error ("failed after 3 retries: "
           ++ "failed to reserve stock (possible concurrent update): conflict"),
         [10, 20, 30]) := by
  have hr : Ord.shouldRetry
      "failed to reserve stock (possible concurrent update): conflict" = true := by decide
  exact ⟨hr,
    (c6_retry_policy (α := Unit)
      (fun _ => .error "failed to reserve stock (possible concurrent update): conflict")).2.1
      _ _ _ rfl rfl rfl hr hr hr⟩

/-- C3 counterexample: a PayOrder on a pending two-item order where
the second DeductStock fails (no inventory row for its product): the
order transaction rolls back, the order stays pending, yet the first
item deduction is committed (reserved 2 to 0, its reservation
confirmed, a deduct log written) — a committed state in which stock
was deducted but the order status update did not take effect. -/
theorem c3_pay_order_not_atomic_cx :
    Ord.payOrderCommit
        ⟨[⟨1,7,"pending","unpaid",false⟩], [⟨1,101,2,false⟩, ⟨1,202,3,false⟩]⟩
        ⟨[⟨101,5,2,3,false⟩], [⟨101,1,2,"active",99,false⟩], []⟩ 7 1
      = (⟨[⟨1,7,"pending","unpaid",false⟩], [⟨1,101,2,false⟩, ⟨1,202,3,false⟩]⟩,
         ⟨[⟨101,5,0,4,false⟩], [⟨101,1,2,"confirmed",99,false⟩],
          [⟨101, some 1, "deduct", -2, 5, 5, 2, 0,
            "Stock deducted for confirmed order", none⟩]⟩) ∧
    reservedOf ⟨[⟨101,5,0,4,false⟩], [⟨101,1,2,"confirmed",99,false⟩],
          [⟨101, some 1, "deduct", -2, 5, 5, 2, 0,
            "Stock deducted for confirmed order", none⟩]⟩ 101
      ≠ reservedOf ⟨[⟨101,5,2,3,false⟩], [⟨101,1,2,"active",99,false⟩], []⟩ 101 :=
  ⟨rfl, by decide⟩

/-- C3 amended: inside PayOrder only the order-side reads and the
status update share the order transaction; every DeductStock commits
in its own inventory transaction.  When the order checks pass and the
first deduction of a two-item order commits but the second fails, the
caller gets the failure, the committed order state is unchanged
(status still pending), and the committed inventory state keeps the
first deduction. -/
theorem c3_pay_order_tx_boundary (odb : OrderDB) (idb idb1 : InvDB)
    (userId orderId : Int) (ord : OrderRow) (it1 it2 : OrderItemRow) (e : InvErr)
    (hget : Ord.getOrderByID odb orderId = some ord)
    (huser : ord.userId = userId) (hst : ord.status = "pending")
    (hitems : Ord.getOrderItems odb orderId = [it1, it2])
    (h1 : Svc.deductStock idb
      ⟨it1.productId, it1.quantity, it1.orderId⟩ = .ok idb1)
    (h2 : Svc.deductStock idb1
      ⟨it2.productId, it2.quantity, it2.orderId⟩ = .error e) :
    Ord.payOrder odb idb userId orderId = (.error (.inv e), idb1) ∧
    Ord.payOrderCommit odb idb userId orderId = (odb, idb1) := by
  have hpay : Ord.payOrder odb idb userId orderId = (.error (.inv e), idb1) := by
    unfold Ord.payOrder
    simp only [hget]
    rw [if_neg (fun hc => hc huser), if_neg (fun hc => hc hst), hitems]
    unfold Ord.deductItems
    simp only [h1]
    unfold Ord.deductItems
    simp only [h2]
  refine ⟨hpay, ?_⟩
  unfold Ord.payOrderCommit
  rw [hpay]

/-- Witness for the amended C3 at the counterexample state. -/
theorem c3_witness :
    Ord.getOrderByID ⟨[⟨1,7,"pending","unpaid",false⟩],
        [⟨1,101,2,false⟩, ⟨1,202,3,false⟩]⟩ 1 = some ⟨1,7,"pending","unpaid",false⟩ ∧
    Ord.getOrderItems ⟨[⟨1,7,"pending","unpaid",false⟩],
        [⟨1,101,2,false⟩, ⟨1,202,3,false⟩]⟩ 1 = [⟨1,101,2,false⟩, ⟨1,202,3,false⟩] ∧
    Svc.deductStock ⟨[⟨101,5,2,3,false⟩], [⟨101,1,2,"active",99,false⟩], []⟩ ⟨101,2,1⟩
      = .ok ⟨[⟨101,5,0,4,false⟩], [⟨101,1,2,"confirmed",99,false⟩],
             [⟨101, some 1, "deduct", -2, 5, 5, 2, 0,
               "Stock deducted for confirmed order", none⟩]⟩ ∧
    Svc.deductStock ⟨[⟨101,5,0,4,false⟩], [⟨101,1,2,"confirmed",99,false⟩],
             [⟨101, some 1, "deduct", -2, 5, 5, 2, 0,
               "Stock deducted for confirmed order", none⟩]⟩ ⟨202,3,1⟩
      = .error .notFound ∧
    Ord.payOrderCommit
        ⟨[⟨1,7,"pending","unpaid",false⟩], [⟨1,101,2,false⟩, ⟨1,202,3,false⟩]⟩
        ⟨[⟨101,5,2,3,false⟩], [⟨101,1,2,"active",99,false⟩], []⟩ 7 1
      = (⟨[⟨1,7,"pending","unpaid",false⟩], [⟨1,101,2,false⟩, ⟨1,202,3,false⟩]⟩,
         ⟨[⟨101,5,0,4,false⟩], [⟨101,1,2,"confirmed",99,false⟩],
          [⟨101, some 1, "deduct", -2, 5, 5, 2, 0,
            "Stock deducted for confirmed order", none⟩]⟩) :=
  ⟨rfl, rfl, rfl, rfl,
   (c3_pay_order_tx_boundary
     ⟨[⟨1,7,"pending","unpaid",false⟩], [⟨1,101,2,false⟩, ⟨1,202,3,false⟩]⟩
     ⟨[⟨101,5,2,3,false⟩], [⟨101,1,2,"active",99,false⟩], []⟩
     ⟨[⟨101,5,0,4,false⟩], [⟨101,1,2,"confirmed",99,false⟩],
      [⟨101, some 1, "deduct", -2, 5, 5, 2, 0,
        "Stock deducted for confirmed order", none⟩]⟩
     7 1 ⟨1,7,"pending","unpaid",false⟩ ⟨1,101,2,false⟩ ⟨1,202,3,false⟩ .notFound
     rfl rfl rfl rfl rfl rfl).2⟩

theorem mapInsert_key_comm (k : Int) (v : StockCheckResponse) (k2 : Int) :
    ∀ p : Int × StockCheckResponse,
      ((if p.1 == k then ((k, v) : Int × StockCheckResponse) else p).1 == k2)
        = (p.1 == k2) := by
  intro p
  by_cases h : (p.1 == k) = true
  · rw [if_pos h]
    have hpk : p.1 = k := by simpa using h
    rw [hpk]
  · rw [if_neg h]

theorem mapLookup_mapInsert (m : List (Int × StockCheckResponse)) (k : Int)
    (v : StockCheckResponse) (k2 : Int) :
    Svc.mapLookup (Svc.mapInsert m k v) k2
      = if k2 = k then some v else Svc.mapLookup m k2 := by
  unfold Svc.mapLookup Svc.mapInsert
  by_cases hany : (m.any (fun p => p.1 == k)) = true
  · rw [if_pos hany, find?_map_comm _ _ (mapInsert_key_comm k v k2) m]
    by_cases hk : k2 = k
    · rw [if_pos hk]
      subst hk
      obtain ⟨p0, hp0mem, hp0⟩ := List.any_eq_true.mp hany
      rcases hfind : m.find? (fun p => p.1 == k2) with _ | p1
      · exact absurd hp0 (List.find?_eq_none.mp hfind p0 hp0mem)
      · have hq1 := List.find?_some hfind
        rw [hfind, Option.map_some', Option.map_some', if_pos hq1]
    · rw [if_neg hk]
      rcases hfind : m.find? (fun p => p.1 == k2) with _ | p1
      · rw [hfind, Option.map_none', Option.map_none']
      · have hq1 := List.find?_some hfind
        have hp1k : (p1.1 == k) = false := by
          rw [beq_eq_false_iff_ne]
          intro hcon
          apply hk
          have h2 : p1.1 = k2 := by simpa using hq1
          rw [← h2, hcon]
        rw [hfind, Option.map_some', Option.map_some',
          if_neg (by rw [hp1k]; exact Bool.false_ne_true)]
        rfl
  · rw [if_neg hany, List.find?_append]
    by_cases hk : k2 = k
    · rw [if_pos hk]
      subst hk
      have hnone : m.find? (fun p => p.1 == k2) = none := by
        rw [List.find?_eq_none]
        intro p hp hcon
        exact (by simpa using hany : ¬ (m.any (fun p => p.1 == k2)) = true)
          (List.any_eq_true.mpr ⟨p, hp, hcon⟩)
      have hfp : (fun p => p.1 == k2) ((k2, v) : Int × StockCheckResponse) = true := by simp
      rw [hnone, Option.none_or,
        List.find?_cons_of_pos (p := fun (q : Int × StockCheckResponse) => q.1 == k2) _ hfp]
      rfl
    · rw [if_neg hk]
      have hsing : List.find? (fun p => p.1 == k2) [((k, v) : Int × StockCheckResponse)]
          = none := by
        rw [List.find?_eq_none]
        intro p hp
        rw [List.mem_singleton] at hp
        subst hp
        simp
        exact fun hcon => hk hcon.symm
      rw [hsing, Option.or_none]

theorem batchCheckLoop_lookup (db : InvDB) :
    ∀ (items : List StockCheckItem) (acc m : List (Int × StockCheckResponse)),
      Svc.batchCheckLoop db items acc = .ok m → ∀ pid : Int,
      Svc.mapLookup m pid
        = match (items.filter (fun i => i.productId == pid)).getLast? with
          | some i => (Svc.checkStockAvailability db i.productId i.quantity).toOption
          | none => Svc.mapLookup acc pid := by
  intro items
  induction items with
  | nil =>
    intro acc m h pid
    simp only [Svc.batchCheckLoop] at h
    injection h with h2
    subst h2
    rfl
  | cons item rest ih =>
    intro acc m h pid
    simp only [Svc.batchCheckLoop] at h
    rcases hchk : Svc.checkStockAvailability db item.productId item.quantity with e | c
    · rw [hchk] at h
      cases h
    · rw [hchk] at h
      have ihh := ih (Svc.mapInsert acc item.productId c) m h pid
      rw [ihh]
      by_cases hpid : ((fun i => i.productId == pid) item) = true
      · rw [List.filter_cons_of_pos (p := fun (j : StockCheckItem) => j.productId == pid) hpid]
        rcases hfil : rest.filter (fun i => i.productId == pid) with _ | ⟨b, t⟩
        · rw [hfil]
          show Svc.mapLookup (Svc.mapInsert acc item.productId c) pid = _
          rw [mapLookup_mapInsert,
            if_pos ((by simpa using hpid : item.productId = pid).symm)]
          show _ = (Svc.checkStockAvailability db item.productId item.quantity).toOption
          rw [hchk]
          rfl
        · rw [hfil, List.getLast?_cons_cons]
          rcases hlast : (b :: t).getLast? with _ | il
          · simp at hlast
          · rfl
      · rw [List.filter_cons_of_neg (p := fun (j : StockCheckItem) => j.productId == pid) hpid]
        rcases hlast : (rest.filter (fun i => i.productId == pid)).getLast? with _ | il
        · rw [hlast]
          show Svc.mapLookup (Svc.mapInsert acc item.productId c) pid = Svc.mapLookup acc pid
          have hne : ¬ pid = item.productId := by
            intro hc
            exact hpid (beq_iff_eq.mpr hc.symm)
          rw [mapLookup_mapInsert, if_neg hne]
        · rw [hlast]

/-- C10: BatchCheckStockAvailability checks each item independently
and keys the result map by product id with Go assignment semantics:
the entry for a product is exactly the independent single check of the
LAST input item naming that product; duplicate items collapse to that
one entry and their quantities are never summed. -/
theorem c10_batch_check_last_wins (db : InvDB) (items : List StockCheckItem)
    (m : List (Int × StockCheckResponse))
    (hok : Svc.batchCheckStockAvailability db items = .ok m) (pid : Int) :
    Svc.mapLookup m pid
      = match (items.filter (fun i => i.productId == pid)).getLast? with
        | some i => (Svc.checkStockAvailability db i.productId i.quantity).toOption
        | none => none := by
  have h := batchCheckLoop_lookup db items [] m hok pid
  rw [h]
  rcases (items.filter (fun i => i.productId == pid)).getLast? with _ | i
  · rfl
  · rfl

/-- Witness for C10: two duplicate items of quantity 3 against
available 5 collapse to one entry that reports isAvailable, although
the duplicate total 6 exceeds the available 5. -/
theorem c10_witness :
    Svc.batchCheckStockAvailability ⟨[⟨1,5,0,0,false⟩],[],[]⟩ [⟨1,3⟩, ⟨1,3⟩]
      = .ok [(1, ⟨1,5,0,true,3⟩)] ∧
    (Svc.mapLookup [(1, ⟨1,5,0,true,3⟩)] 1
      = match (([⟨1,3⟩, ⟨1,3⟩] : List StockCheckItem).filter
          (fun i => i.productId == 1)).getLast? with
        | some i => (Svc.checkStockAvailability ⟨[⟨1,5,0,0,false⟩],[],[]⟩
            i.productId i.quantity).toOption
        | none => none) ∧
    (Svc.mapLookup [(1, ⟨1,5,0,true,3⟩)] 1).map (fun r => r.isAvailable) = some true ∧
    (5 : Int) < 3 + 3 :=
  ⟨rfl,
   c10_batch_check_last_wins ⟨[⟨1,5,0,0,false⟩],[],[]⟩ [⟨1,3⟩, ⟨1,3⟩]
     [(1, ⟨1,5,0,true,3⟩)] rfl 1,
   by decide, by decide⟩

/-- C9: a successful ReserveStock followed immediately by a
ReleaseStock of the same product, order and quantity succeeds and
restores available and reserved stock to exactly their pre-Reserve
values. -/
theorem c9_reserve_release_conservation (db db1 : InvDB) (req : ReserveStockRequest)
    (ttl now : Int)
    (hnn : stockNonneg db) (hu : uniqueProducts db) (hq : (1:Int) ≤ req.quantity)
    (hok : Svc.reserveStock db req ttl now = .ok db1) :
    ∃ db2, Svc.releaseStock db1 ⟨req.productId, req.quantity, req.orderId⟩ = .ok db2 ∧
      availOf db2 req.productId = availOf db req.productId ∧
      reservedOf db2 req.productId = reservedOf db req.productId := by
  obtain ⟨inv, hget, hfrom⟩ := reserveStock_ok_eq hok
  obtain ⟨hlt, hm, hdb1⟩ := reserveStockFrom_ok_eq hfrom
  have hgetL : db.inventories.find?
      (fun r => decide (r.productId = req.productId ∧ r.deleted = false)) = some inv := hget
  have htmp := List.find?_some hgetL
  have hlive : inv.productId = req.productId ∧ inv.deleted = false := of_decide_eq_true htmp
  have hmem := List.mem_of_find?_eq_some hgetL
  have hres0 : (0:Int) ≤ inv.reservedStock := (hnn inv hmem).2
  obtain ⟨r0, hget0, hp0, hget1⟩ := updateInventories_ok db
    (fun r => decide (r.productId = req.productId ∧ req.quantity ≤ r.availableStock ∧
      r.version = inv.version ∧ r.deleted = false))
    (fun r => { r with availableStock := r.availableStock - req.quantity,
                       reservedStock := r.reservedStock + req.quantity,
                       version := r.version + 1 })
    req.productId
    (fun r hr => ⟨(of_decide_eq_true hr).1, (of_decide_eq_true hr).2.2.2⟩)
    (fun r => rfl) (fun r => rfl) hu hm
  have hr0 : inv = r0 := by
    rw [hget] at hget0
    exact (Option.some.injEq _ _).mp hget0
  subst hr0
  have hinv1 : db1.inventories
      = (Sqlc.reserveStock db req.quantity req.productId inv.version).1.inventories := by
    rw [hdb1]
    rfl
  have hget_db1 : Sqlc.getInventoryByProductID db1 req.productId
      = some { inv with availableStock := inv.availableStock - req.quantity,
                        reservedStock := inv.reservedStock + req.quantity,
                        version := inv.version + 1 } := by
    show db1.inventories.find? _ = _
    rw [hinv1]
    exact hget1
  have hok' : applyOp db (Op.reserve req ttl now) = .ok db1 := hok
  have hv' : ValidOp (Op.reserve req ttl now) := hq
  have hsafe := applyOp_ok hnn hu hv' hok'
  obtain ⟨hnn1, hu1, -⟩ := hsafe
  have hres_db1 : db1.reservations
      = db.reservations ++ [⟨req.productId, req.orderId, req.quantity, "active",
          now + ttl, false⟩] := by
    rw [hdb1]
    rfl
  have hmemf : ({ inv with availableStock := inv.availableStock - req.quantity,
                           reservedStock := inv.reservedStock + req.quantity,
                           version := inv.version + 1 } : Inventory) ∈ db1.inventories := by
    have hgl : db1.inventories.find?
        (fun r => decide (r.productId = req.productId ∧ r.deleted = false))
        = some { inv with availableStock := inv.availableStock - req.quantity,
                          reservedStock := inv.reservedStock + req.quantity,
                          version := inv.version + 1 } := hget_db1
    exact List.mem_of_find?_eq_some hgl
  have hm2 : (Sqlc.releaseReservedStock db1 req.quantity req.productId
      (inv.version + 1)).2 ≠ 0 := by
    show (db1.inventories.filter _).length ≠ 0
    refine filter_len_ne_zero_of_mem hmemf (decide_eq_true ?_)
    exact ⟨hlive.1, by show req.quantity ≤ inv.reservedStock + req.quantity; omega,
           rfl, hlive.2⟩
  have hcr2 : (Sqlc.cancelReservation (Sqlc.releaseReservedStock db1 req.quantity
      req.productId (inv.version + 1)).1 req.orderId).2 ≠ 0 := by
    show (db1.reservations.filter _).length ≠ 0
    rw [hres_db1]
    exact filter_len_ne_zero_of_mem
      (List.mem_append_right _ (List.mem_singleton_self _))
      (decide_eq_true ⟨rfl, rfl, rfl⟩)
  have hrel : Svc.releaseStock db1 ⟨req.productId, req.quantity, req.orderId⟩
      = .ok (Sqlc.createInventoryLog
          (Sqlc.cancelReservation
            (Sqlc.releaseReservedStock db1 req.quantity req.productId
              (inv.version + 1)).1 req.orderId).1
          ⟨req.productId, some req.orderId, "release", -req.quantity,
           inv.availableStock - req.quantity,
           inv.availableStock - req.quantity + req.quantity,
           inv.reservedStock + req.quantity,
           inv.reservedStock + req.quantity - req.quantity,
           "Stock released from cancelled order", none⟩) := by
    unfold Svc.releaseStock
    simp only [hget_db1]
    rw [if_neg hm2, if_neg hcr2]
  obtain ⟨r1, hget10, hp1, hget11⟩ := updateInventories_ok db1
    (fun r => decide (r.productId = req.productId ∧ req.quantity ≤ r.reservedStock ∧
      r.version = inv.version + 1 ∧ r.deleted = false))
    (fun r => { r with availableStock := r.availableStock + req.quantity,
                       reservedStock := r.reservedStock - req.quantity,
                       version := r.version + 1 })
    req.productId
    (fun r hr => ⟨(of_decide_eq_true hr).1, (of_decide_eq_true hr).2.2.2⟩)
    (fun r => rfl) (fun r => rfl) hu1 hm2
  have hr1 : ({ inv with availableStock := inv.availableStock - req.quantity,
                         reservedStock := inv.reservedStock + req.quantity,
                         version := inv.version + 1 } : Inventory) = r1 := by
    rw [hget_db1] at hget10
    exact (Option.some.injEq _ _).mp hget10
  refine ⟨_, hrel, ?_, ?_⟩
  · show (Sqlc.getInventoryByProductID _ req.productId).map _
      = (Sqlc.getInventoryByProductID db req.productId).map _
    rw [hget]
    have hfin : Sqlc.getInventoryByProductID
        (Sqlc.createInventoryLog
          (Sqlc.cancelReservation
            (Sqlc.releaseReservedStock db1 req.quantity req.productId
              (inv.version + 1)).1 req.orderId).1
          ⟨req.productId, some req.orderId, "release", -req.quantity,
           inv.availableStock - req.quantity,
           inv.availableStock - req.quantity + req.quantity,
           inv.reservedStock + req.quantity,
           inv.reservedStock + req.quantity - req.quantity,
           "Stock released from cancelled order", none⟩) req.productId
        = some { r1 with availableStock := r1.availableStock + req.quantity,
                         reservedStock := r1.reservedStock - req.quantity,
                         version := r1.version + 1 } := hget11
    rw [hfin, Option.map_some', Option.map_some']
    rw [← hr1]
    show some (inv.availableStock - req.quantity + req.quantity) = some inv.availableStock
    exact congrArg some (by omega)
  · show (Sqlc.getInventoryByProductID _ req.productId).map _
      = (Sqlc.getInventoryByProductID db req.productId).map _
    rw [hget]
    have hfin : Sqlc.getInventoryByProductID
        (Sqlc.createInventoryLog
          (Sqlc.cancelReservation
            (Sqlc.releaseReservedStock db1 req.quantity req.productId
              (inv.version + 1)).1 req.orderId).1
          ⟨req.productId, some req.orderId, "release", -req.quantity,
           inv.availableStock - req.quantity,
           inv.availableStock - req.quantity + req.quantity,
           inv.reservedStock + req.quantity,
           inv.reservedStock + req.quantity - req.quantity,
           "Stock released from cancelled order", none⟩) req.productId
        = some { r1 with availableStock := r1.availableStock + req.quantity,
                         reservedStock := r1.reservedStock - req.quantity,
                         version := r1.version + 1 } := hget11
    rw [hfin, Option.map_some', Option.map_some']
    rw [← hr1]
    show some (inv.reservedStock + req.quantity - req.quantity) = some inv.reservedStock
    exact congrArg some (by omega)

/-- Witness for C9 at scenario A. -/
theorem c9_witness :
    stockNonneg ⟨[⟨1,10,0,0,false⟩],[],[]⟩ ∧
    uniqueProducts ⟨[⟨1,10,0,0,false⟩],[],[]⟩ ∧
    Svc.reserveStock ⟨[⟨1,10,0,0,false⟩],[],[]⟩ ⟨1,4,100⟩ 30 1000
      = .ok ⟨[⟨1,6,4,1,false⟩], [⟨1,100,4,"active",1030,false⟩],
             [⟨1, some 100, "reserve", 4, 10, 6, 0, 4,
               "Stock reserved for order", none⟩]⟩ ∧
    ∃ db2, Svc.releaseStock
        ⟨[⟨1,6,4,1,false⟩], [⟨1,100,4,"active",1030,false⟩],
         [⟨1, some 100, "reserve", 4, 10, 6, 0, 4,
           "Stock reserved for order", none⟩]⟩ ⟨1,4,100⟩ = .ok db2 ∧
      availOf db2 1 = availOf ⟨[⟨1,10,0,0,false⟩],[],[]⟩ 1 ∧
      reservedOf db2 1 = reservedOf ⟨[⟨1,10,0,0,false⟩],[],[]⟩ 1 := by
  have h1 : stockNonneg ⟨[⟨1,10,0,0,false⟩],[],[]⟩ := by
    intro r hr
    cases hr with
    | head => exact ⟨by decide, by decide⟩
    | tail _ h => cases h
  have h2 : uniqueProducts ⟨[⟨1,10,0,0,false⟩],[],[]⟩ :=
    fun pid => List.length_filter_le _ _
  exact ⟨h1, h2, rfl,
    c9_reserve_release_conservation ⟨[⟨1,10,0,0,false⟩],[],[]⟩
      ⟨[⟨1,6,4,1,false⟩], [⟨1,100,4,"active",1030,false⟩],
       [⟨1, some 100, "reserve", 4, 10, 6, 0, 4,
         "Stock reserved for order", none⟩]⟩
      ⟨1,4,100⟩ 30 1000 h1 h2 (by decide) rfl⟩

end GoMall
